import Mathlib

/- Verification development for the ads_analyzer repository.
   Shallow embedding of `public_sheets_connector.py` and `app.py`
   (ingestion, row classification, snapshot building, calculated fields,
   column-alias resolution, dataset-type detection, show matching and
   funnel aggregation), together with theorems settling the claims. -/

namespace AdsAnalyzer

/- ------------------------------------------------------------------ -/
/- Generic helpers: Python insertion-ordered dicts as association lists -/
/- ------------------------------------------------------------------ -/

/-- Python dict assignment `d[k] = v`: replaces the value in place if the key
is present (keeping its position), otherwise appends the binding. -/
def dictInsert {α β : Type} [DecidableEq α] : List (α × β) → α → β → List (α × β)
  | [], k, v => [(k, v)]
  | (k0, v0) :: rest, k, v =>
    if k0 = k then (k0, v) :: rest else (k0, v0) :: dictInsert rest k v

/-- Python dict lookup `d.get(k)`. -/
def dictFind {α β : Type} [DecidableEq α] : List (α × β) → α → Option β
  | [], _ => none
  | (k0, v0) :: rest, k => if k0 = k then some v0 else dictFind rest k

/- ------------------------------------------------------------------ -/
/- Character and string helpers                                        -/
/- ------------------------------------------------------------------ -/

/-- ASCII uppercase letter (regex class `[A-Z]`). -/
def pyIsUpper (c : Char) : Bool := 'A' ≤ c && c ≤ 'Z'

/-- Character kept by the normalization regex `[^a-z0-9]` after lowering. -/
def isLowerAlnum (c : Char) : Bool := ('a' ≤ c && c ≤ 'z') || ('0' ≤ c && c ≤ '9')

/-- Python `re` whitespace class `\s` (ASCII part). -/
def pyIsSpaceChar (c : Char) : Bool :=
  c == ' ' || c == '\t' || c == '\n' || c == '\r' || c == '\x0b' || c == '\x0c'

/-- Python word character `\w` (ASCII part), used for `\b` boundaries. -/
def wordChar (c : Char) : Bool := c.isAlphanum || c == '_'

/-- Python `str.strip()` (ASCII whitespace). -/
def pyStrip (s : String) : String :=
  String.mk (((s.toList.dropWhile pyIsSpaceChar).reverse.dropWhile pyIsSpaceChar).reverse)

/-- Python `str.lower()` (ASCII). -/
def strLower (s : String) : String := String.mk (s.toList.map Char.toLower)

/-- Python `str.upper()` (ASCII). -/
def strUpper (s : String) : String := String.mk (s.toList.map Char.toUpper)

/-- Embeds both `AdsDataProcessor._normalize_column_name` and
`AdsDataProcessor._normalize_text` (app.py lines 145-147 and 369-370), and the
connector's `normalized_city` expression (public_sheets_connector.py line 382):
lower-case then drop every character outside `[a-z0-9]`. -/
def normalize_text (s : String) : String :=
  String.mk ((s.toList.map Char.toLower).filter isLowerAlnum)

/-- Bool prefix test on character lists. -/
def isPrefixB : List Char → List Char → Bool
  | [], _ => true
  | _ :: _, [] => false
  | a :: as, b :: bs => a == b && isPrefixB as bs

/-- Bool substring test on character lists (Python `needle in hay`). -/
def containsSubL (needle : List Char) : List Char → Bool
  | [] => needle.isEmpty
  | c :: rest => isPrefixB needle (c :: rest) || containsSubL needle rest

/-- Python `needle in hay` on strings. -/
def containsSub (needle hay : String) : Bool := containsSubL needle.toList hay.toList

/-- Digit value of an ASCII digit character. -/
def digitVal (c : Char) : Int := Int.ofNat (c.toNat - 48)

/- ------------------------------------------------------------------ -/
/- Cell values and dataframes                                          -/
/- ------------------------------------------------------------------ -/

/-- A pandas cell: a string, a number, a timestamp, or NaN/None (`null`). -/
inductive Value where
  | s (t : String)
  | n (q : ℚ)
  | d (t : Int)
  | null
deriving DecidableEq

/-- Python truthiness of a cell value (`if not x`). -/
def Value.truthy : Value → Bool
  | .s t => t != ""
  | .n q => decide (q ≠ 0)
  | .d _ => true
  | .null => false

/-- A pandas DataFrame: ordered association of column name to cell list. -/
abbrev DataFrame := List (String × List Value)

/-- Column labels, in order (`df.columns`). -/
def dfCols (df : DataFrame) : List String := df.map Prod.fst

/-- Python `name in df.columns`. -/
def dfHasCol (df : DataFrame) (c : String) : Bool := (dfCols df).contains c

/-- pandas `df.empty`: no columns or a zero-length index. -/
def dfEmpty : DataFrame → Bool
  | [] => true
  | (_, col) :: _ => col.isEmpty

/-- Number of rows (length of the shared index, read off the first column). -/
def nrows : DataFrame → Nat
  | [] => 0
  | (_, col) :: _ => col.length

/-- Column data access `df[c]` (labels assumed unique). -/
def getColFirst (df : DataFrame) (c : String) : Option (List Value) :=
  (df.find? (fun p => p.1 == c)).map Prod.snd

/-- Replace a column's data through a function, when the column exists. -/
def mapCol (df : DataFrame) (c : String) (f : Value → Value) : DataFrame :=
  match getColFirst df c with
  | some vals => dictInsert df c (vals.map f)
  | none => df

/-- pandas `df.rename(columns=m)`: relabel columns, data untouched. -/
def renameCols (df : DataFrame) (m : List (String × String)) : DataFrame :=
  df.map (fun p => (match dictFind m p.1 with | some nw => nw | none => p.1, p.2))

/-- The Python dict comprehension `{normalize(col): col for col in cols}` keeps,
for each normalized key, the LAST column with that normalization; this is its
lookup function. -/
def lookupNormLast (cols : List String) (key : String) : Option String :=
  (cols.filter (fun c => normalize_text c == key)).getLast?

/-- Oracle bundle for the external library calls the source makes: pandas
numeric/datetime coercion, Python `float()`/`str()` and the exchange-rate
table fetched over the network. Theorems quantify over it; witnesses pick a
concrete instance consistent with the library behaviour. -/
structure PyCtx where
  toNumericCell : Value → Value
  toDatetimeCell : Value → Value
  strToFloat : String → Option ℚ
  parseDate : String → Option Int
  dateParseOk : String → Bool
  rates : String → Option ℚ
  reprNum : ℚ → String
  reprDate : Int → String
  nowIso : String

/- ------------------------------------------------------------------ -/
/- public_sheets_connector.py : ValueParser (currency and numbers)     -/
/- ------------------------------------------------------------------ -/

/-- `PublicSheetsConnector.currency_symbol_map` (lines 24-35). -/
def currency_symbol_map : List (String × String) :=
  [("R$", "BRL"), ("€", "EUR"), ("£", "GBP"), ("¥", "JPY"), ("₡", "CRC"),
   ("C$", "CAD"), ("A$", "AUD"), ("MX$", "MXN"), ("COP$", "COP"), ("CLP$", "CLP")]

/-- `PublicSheetsConnector.default_exchange_rates` (lines 36-48). -/
def default_exchange_rates : List (String × ℚ) :=
  [("USD", 1), ("BRL", 5), ("EUR", (92 : ℚ)/100), ("GBP", (79 : ℚ)/100),
   ("CAD", (136 : ℚ)/100), ("AUD", (3 : ℚ)/2), ("MXN", (168 : ℚ)/10),
   ("CRC", 515), ("JPY", 151), ("COP", 3920), ("CLP", 925)]

/-- Leftmost occurrence of three consecutive `[A-Z]` characters
(the `re.search(r"([A-Z]{3})", …)` in `_detect_currency_code`). -/
def findUpper3 : List Char → Option String
  | a :: b :: c :: rest =>
    if pyIsUpper a && pyIsUpper b && pyIsUpper c then some (String.mk [a, b, c])
    else findUpper3 (b :: c :: rest)
  | _ => none

/-- `PublicSheetsConnector._detect_currency_code` (lines 445-457). -/
def detect_currency_code (raw : String) : String :=
  match currency_symbol_map.find? (fun p => containsSub p.1 raw) with
  | some p => p.2
  | none =>
    match findUpper3 raw.toList with
    | some code => if (dictFind default_exchange_rates code).isSome then code else "USD"
    | none => "USD"

/-- Python `str.rfind` on a character list: last index or -1. -/
def rfindIdx (c : Char) (cs : List Char) : Int :=
  match cs.reverse.findIdx? (· == c) with
  | some i => (cs.length : Int) - 1 - (i : Int)
  | none => -1

/-- `PublicSheetsConnector._parse_numeric_amount` (lines 459-485): strip,
drop U+00A0/U+202F, keep `[0-9,.-]`, disambiguate decimal comma vs period,
then Python `float()` (the oracle `ctx.strToFloat`; its `try/except` returns
null on failure). -/
def parse_numeric_amount (ctx : PyCtx) (raw : String) : Option ℚ :=
  let v1 := (pyStrip raw).toList.filter (fun c => c != '\u00A0' && c != '\u202F')
  let cleaned := v1.filter (fun c => c.isDigit || c == ',' || c == '.' || c == '-')
  let commas := cleaned.count ','
  let dots := cleaned.count '.'
  let final :=
    if commas ≠ 0 && dots ≠ 0 then
      if rfindIdx ',' cleaned < rfindIdx '.' cleaned then
        cleaned.filter (fun c => c != ',')
      else
        (cleaned.filter (fun c => c != '.')).map (fun c => if c == ',' then '.' else c)
    else if commas = 1 && dots = 0 then
      let ip := cleaned.takeWhile (fun c => c != ',')
      let fp := (cleaned.dropWhile (fun c => c != ',')).tail
      if fp.length = 1 ∨ fp.length = 2 then ip ++ '.' :: fp
      else cleaned.filter (fun c => c != ',')
    else cleaned.filter (fun c => c != ',')
  ctx.strToFloat (String.mk final)

/-- `PublicSheetsConnector._convert_to_usd` (lines 487-506); `ctx.rates` is
the cached exchange-rate table (`_ensure_exchange_rates` refreshes it over the
network, which the oracle abstracts). -/
def convert_to_usd (ctx : PyCtx) (amount : ℚ) (code : String) : ℚ :=
  let cc := strUpper (if code == "" then "USD" else code)
  if cc == "USD" then amount
  else
    let r1 := ctx.rates cc
    let r2 :=
      match r1 with
      | some q => if q = 0 then dictFind default_exchange_rates cc else some q
      | none => dictFind default_exchange_rates cc
    match r2 with
    | none => amount
    | some q => if q = 0 then amount else amount / q

/-- `PublicSheetsConnector._clean_cell_value` (lines 238-263). `value` is
`None` or the raw cell string; date parsing is the `pd.to_datetime` oracle. -/
def clean_cell_value (ctx : PyCtx) (value : Option String) (field : String) : Value :=
  match value with
  | none => .null
  | some raw =>
    if raw == "" then .null
    else
      let sv := pyStrip raw
      if ["sales_to_date"].contains field then
        match parse_numeric_amount ctx sv with
        | none => .null
        | some amt => .n (convert_to_usd ctx amt (detect_currency_code sv))
      else if ["capacity", "venue_holds", "wheelchair_companions", "camera",
               "artists_hold", "kills", "yesterday_sales", "today_sold",
               "total_sold", "remaining", "sold_percentage", "atp"].contains field then
        match parse_numeric_amount ctx sv with
        | none => .null
        | some q => .n q
      else if ["show_date", "report_date"].contains field then
        match ctx.parseDate sv with
        | some t => .d t
        | none => .null
      else if sv == "" then .null else .s sv

/- ------------------------------------------------------------------ -/
/- public_sheets_connector.py : snapshot building and row analysis     -/
/- ------------------------------------------------------------------ -/

/-- One structured show observation (`show_data` dict built by
`_extract_show_data`, fields per `column_mapping`, lines 53-72). -/
structure ShowSnapshot where
  show_id : Value
  show_date : Value
  report_date : Value
  show_name : Value
  capacity : Value
  venue_holds : Value
  wheelchair_companions : Value
  camera : Value
  artists_hold : Value
  kills : Value
  yesterday_sales : Value
  today_sold : Value
  sales_to_date : Value
  total_sold : Value
  remaining : Value
  sold_percentage : Value
  atp : Value
  report_message : Value
  source_row : Nat
  current_month : Option String
  extraction_date : String
deriving DecidableEq

/-- `PublicSheetsConnector._extract_show_data` (lines 203-236): rows shorter
than 18 cells yield no snapshot; each mapped cell is cleaned per its field;
the result is discarded when `show_id` or `show_name` is falsy. -/
def extract_show_data (ctx : PyCtx) (row : List String) (rowIdx : Nat)
    (currentMonth : Option String) : Option ShowSnapshot :=
  if row.length < 18 then none
  else
    let cell := fun (i : Nat) (f : String) => clean_cell_value ctx (row.get? i) f
    let sd : ShowSnapshot :=
      { show_id := cell 0 "show_id"
        show_date := cell 1 "show_date"
        report_date := cell 2 "report_date"
        show_name := cell 3 "show_name"
        capacity := cell 4 "capacity"
        venue_holds := cell 5 "venue_holds"
        wheelchair_companions := cell 6 "wheelchair_companions"
        camera := cell 7 "camera"
        artists_hold := cell 8 "artists_hold"
        kills := cell 9 "kills"
        yesterday_sales := cell 10 "yesterday_sales"
        today_sold := cell 11 "today_sold"
        sales_to_date := cell 12 "sales_to_date"
        total_sold := cell 13 "total_sold"
        remaining := cell 14 "remaining"
        sold_percentage := cell 15 "sold_percentage"
        atp := cell 16 "atp"
        report_message := cell 17 "report_message"
        source_row := rowIdx
        current_month := currentMonth
        extraction_date := ctx.nowIso }
    if !sd.show_id.truthy || !sd.show_name.truthy then none else some sd

/-- Row classifications of `_identify_line_type`. -/
inductive LineType where
  | monthHeader
  | monthAsterisk
  | showData
  | endRow
  | summaryLine
  | header
  | unknown
deriving DecidableEq

/-- `patterns['month_header']`: `^(September|October|November|December)$`. -/
def monthNames : List String := ["September", "October", "November", "December"]

/-- `patterns['month_asterisk']`: `^\*(September|October|November|December)\*$`. -/
def monthAsteriskNames : List String :=
  ["*September*", "*October*", "*November*", "*December*"]

/-- Tail of the show-id pattern after the optional `_S`: `\d+` then `$`
(so the optional group matches only when at least one digit follows and the
string ends inside the digits). -/
def showIdAfterDigits : List Char → Bool
  | [] => true
  | '_' :: 'S' :: ds => !ds.isEmpty && ds.all Char.isDigit
  | _ => false

/-- `_\d{4}(_S\d+)?$` part of the show-id pattern. -/
def showIdTail : List Char → Bool
  | '_' :: d1 :: d2 :: d3 :: d4 :: rest =>
    d1.isDigit && d2.isDigit && d3.isDigit && d4.isDigit && showIdAfterDigits rest
  | _ => false

/-- `patterns['show_id']`: `^[A-Z]{2,3}_\d{4}(_S\d+)?$` (if three uppercase
letters are available the `{2,3}` backtrack to two cannot succeed, since the
third letter is not `_`). -/
def matchesShowId (s : String) : Bool :=
  match s.toList with
  | a :: b :: rest =>
    pyIsUpper a && pyIsUpper b &&
      (match rest with
       | c :: rest2 => if pyIsUpper c then showIdTail rest2 else showIdTail rest
       | [] => false)
  | _ => false

/-- `patterns['summary_line']`: prefix match of `^\d+\s*\(\+\d+\)\s*\d+`
(all the character classes are disjoint, so the greedy scan is exact). -/
def summaryMatch (s : String) : Bool :=
  let cs := s.toList
  let d1 := cs.takeWhile Char.isDigit
  let r1 := cs.dropWhile Char.isDigit
  if d1.isEmpty then false
  else
    match r1.dropWhile pyIsSpaceChar with
    | '(' :: '+' :: r2 =>
      let d2 := r2.takeWhile Char.isDigit
      let r3 := r2.dropWhile Char.isDigit
      if d2.isEmpty then false
      else
        match r3 with
        | ')' :: r4 =>
          (match r4.dropWhile pyIsSpaceChar with
           | c :: _ => c.isDigit
           | [] => false)
        | _ => false
    | _ => false

/-- `PublicSheetsConnector._is_date_like` (lines 192-201): falsy values are
not dates, otherwise `pd.to_datetime` (oracle) decides. -/
def is_date_like (ctx : PyCtx) (v : String) : Bool := v != "" && ctx.dateParseOk v

/-- `PublicSheetsConnector._identify_line_type` (lines 164-190), first match
wins in the source's order. -/
def identify_line_type (ctx : PyCtx) (firstCell : String) (row : List String) : LineType :=
  if monthNames.contains firstCell then .monthHeader
  else if monthAsteriskNames.contains firstCell then .monthAsterisk
  else if matchesShowId firstCell then .showData
  else if firstCell == "endRow" then .endRow
  else if summaryMatch firstCell then .summaryLine
  else if containsSub "Show ID" firstCell || containsSub "Show Date" firstCell then .header
  else if decide (row.length > 10) && is_date_like ctx (row.getD 1 "") then .showData
  else .unknown

/-- `str(row[0]).strip() if row[0] else ""` (line 126). -/
def firstCellOf (row : List String) : String :=
  match row.head? with
  | none => ""
  | some h => if h == "" then "" else pyStrip h

/-- Loop body of `_analyze_rows_minutely` (lines 114-162): skip empty rows,
track the current month, collect snapshots, and stop at the first `end_row`. -/
def analyzeGo (ctx : PyCtx) (idx : Nat) (month : Option String) :
    List (List String) → List ShowSnapshot
  | [] => []
  | row :: rest =>
    if row.isEmpty then analyzeGo ctx (idx + 1) month rest
    else
      let fc := firstCellOf row
      match identify_line_type ctx fc row with
      | .monthHeader => analyzeGo ctx (idx + 1) (some fc) rest
      | .showData =>
        match extract_show_data ctx row idx month with
        | some sd => sd :: analyzeGo ctx (idx + 1) month rest
        | none => analyzeGo ctx (idx + 1) month rest
      | .summaryLine => analyzeGo ctx (idx + 1) month rest
      | .monthAsterisk => analyzeGo ctx (idx + 1) month rest
      | .endRow => []
      | .header => analyzeGo ctx (idx + 1) month rest
      | .unknown => analyzeGo ctx (idx + 1) month rest

/-- `PublicSheetsConnector._analyze_rows_minutely` over the raw CSV rows. -/
def analyze_rows_minutely (ctx : PyCtx) (raw : List (List String)) : List ShowSnapshot :=
  analyzeGo ctx 0 none raw

/- ------------------------------------------------------------------ -/
/- public_sheets_connector.py : calculated fields                      -/
/- ------------------------------------------------------------------ -/

/-- `occupancy_rate` (lines 300-304): `np.where(capacity > 0,
total_sold / capacity * 100, 0)`; a null capacity fails the `> 0` test and a
null `total_sold` propagates NaN through the arithmetic branch. -/
def occupancy_rate (capacity total_sold : Option ℚ) : Option ℚ :=
  match capacity with
  | some c => if 0 < c then total_sold.map (fun t => t / c * 100) else some 0
  | none => some 0

/-- `performance_category` (lines 360-365): `pd.cut` with
`bins=[0, 50, 75, 90, 100]`, `include_lowest=True` and default `right=True`,
i.e. the right-closed intervals [0,50], (50,75], (75,90], (90,100]; values
outside them (and NaN) receive no category. -/
def performance_category (occ : Option ℚ) : Option String :=
  match occ with
  | none => none
  | some x =>
    if x < 0 then none
    else if x ≤ 50 then some "Underperforming"
    else if x ≤ 75 then some "Developing"
    else if x ≤ 90 then some "Strong"
    else if x ≤ 100 then some "Sold Out"
    else none

/-- `avg_sales_last_7_days` (lines 340-347): per show the chronologically
ordered, zero-filled `today_sold` series is run through
`rolling(window=7, min_periods=1).mean()` — entry `i` averages the last
`min(i+1, 7)` observations. -/
def rollingMean7 (obs : List ℚ) : List ℚ :=
  (List.range obs.length).map (fun i =>
    let w := ((obs.take (i + 1)).reverse).take 7
    w.sum / (w.length : ℚ))

/- ------------------------------------------------------------------ -/
/- app.py : AdsDataProcessor column aliases                            -/
/- ------------------------------------------------------------------ -/

/-- `AdsDataProcessor.standard_column_aliases` (app.py lines 56-93), in
source order, duplicates included. -/
def standard_column_aliases : List (String × List String) :=
  [("date", ["reporting_starts", "date", "day", "date_start", "created_time"]),
   ("campaign_name", ["campaign_name", "campaign", "campaign id", "campaign"]),
   ("ad_set_name", ["ad_set_name", "ad set name"]),
   ("ad_name", ["ad_name", "ad name"]),
   ("impressions", ["impressions"]),
   ("reach", ["reach"]),
   ("frequency", ["frequency"]),
   ("clicks", ["clicks", "link_clicks", "link clicks"]),
   ("spend", ["spend", "amount_spent", "amount spent", "amount spent (usd)"]),
   ("ctr", ["ctr", "ctr (link)", "click_through_rate"]),
   ("cpc", ["cpc", "cost_per_click"]),
   ("cpm", ["cpm", "cpm (cost per 1,000 impressions)",
            "cpm (cost per 1,000 impressions) (usd)"]),
   ("results", ["results"]),
   ("result_indicator", ["result_indicator", "result indicator"]),
   ("ends", ["ends"]),
   ("starts", ["starts"]),
   ("placement", ["placement"]),
   ("platform", ["platform"]),
   ("device_platform", ["device platform", "device_platform"]),
   ("impression_device", ["impression device"]),
   ("time_of_day", ["time of day (viewer's time zone)", "time"])]

/-- Aliases of `lp_views` (lines 96-105). -/
def lp_views_aliases : List String :=
  ["f1", "fun1", "lpviews", "lp_views", "lpviewsf1", "lpviewsfun1",
   "landingpageviews", "landing_page_views"]

/-- Aliases of `add_to_cart` (lines 106-114). -/
def add_to_cart_aliases : List String :=
  ["f2", "fun2", "addtocart", "add_to_cart", "addtocartf2",
   "addtocart_fun2", "initiated_checkout"]

/-- Aliases of `purchases` (lines 115-124). -/
def purchases_aliases : List String :=
  ["f3", "fun3", "conv_addtocart", "conv_f3", "purchases",
   "purchases_f3", "orders", "tickets_sold"]

/-- `AdsDataProcessor.funnel_column_aliases` (lines 95-125). -/
def funnel_column_aliases : List (String × List String) :=
  [("lp_views", lp_views_aliases),
   ("add_to_cart", add_to_cart_aliases),
   ("purchases", purchases_aliases)]

/-- `AdsDataProcessor.funnel_indicator_aliases` (lines 127-143). -/
def funnel_indicator_aliases : List (String × String) :=
  [("actions:landing_page_view", "lp_views"),
   ("landing_page_view", "lp_views"),
   ("landing_page_views", "lp_views"),
   ("lpviews", "lp_views"),
   ("actions:link_click", "clicks"),
   ("link_clicks", "clicks"),
   ("actions:offsite_conversion.fb_pixel_add_to_cart", "add_to_cart"),
   ("offsite_conversion.fb_pixel_add_to_cart", "add_to_cart"),
   ("add_to_cart", "add_to_cart"),
   ("initiate_checkout", "add_to_cart"),
   ("actions:offsite_conversion.fb_pixel_purchase", "purchases"),
   ("offsite_conversion.fb_pixel_purchase", "purchases"),
   ("purchases", "purchases"),
   ("purchase", "purchases"),
   ("onsite_conversion.purchase", "purchases")]

/- ------------------------------------------------------------------ -/
/- app.py : column normalization, KPI fill-in, funnel normalization    -/
/- ------------------------------------------------------------------ -/

/-- `AdsDataProcessor.detect_and_normalize_columns` (lines 149-172): for each
standard name, its first alias found among the normalized existing headers
binds that header to the standard name — unless the standard name is already a
column; then all collected renames are applied at once. -/
def detect_and_normalize_columns (df : DataFrame) : DataFrame :=
  if dfEmpty df then df
  else
    let cols := dfCols df
    let colMap := standard_column_aliases.foldl (fun acc p =>
      match p.2.findSome? (fun al => lookupNormLast cols (normalize_text al)) with
      | some current => if cols.contains p.1 then acc else dictInsert acc current p.1
      | none => acc) []
    renameCols df colMap

/-- Elementwise `np.where(imp > 0, clicks / imp * 100, 0)` (lines 211-213). -/
def ctrElem (imp clk : Value) : Value :=
  match imp with
  | .n i => if 0 < i then (match clk with | .n c => .n (c / i * 100) | _ => .null) else .n 0
  | _ => .n 0

/-- Elementwise `np.where(clicks > 0, spend / clicks, 0)` (line 216). -/
def cpcElem (clk spd : Value) : Value :=
  match clk with
  | .n c => if 0 < c then (match spd with | .n v => .n (v / c) | _ => .null) else .n 0
  | _ => .n 0

/-- Elementwise `np.where(imp > 0, spend / imp * 1000, 0)` (lines 219-221). -/
def cpmElem (imp spd : Value) : Value :=
  match imp with
  | .n i => if 0 < i then (match spd with | .n v => .n (v / i * 1000) | _ => .null) else .n 0
  | _ => .n 0

/-- Missing-column-safe zipWith used for the derived KPI columns. -/
def zipColsWith (f : Value → Value → Value) (a b : Option (List Value)) : List Value :=
  match a, b with
  | some x, some y => List.zipWith f x y
  | _, _ => []

/-- `AdsDataProcessor.calculate_missing_kpis` (lines 188-223): numeric-coerce
the listed columns, then derive `ctr`, `cpc`, `cpm` when their inputs exist
and they do not. -/
def calculate_missing_kpis (ctx : PyCtx) (df : DataFrame) : DataFrame :=
  if dfEmpty df then df
  else
    let numericCols := ["impressions", "reach", "frequency", "clicks", "spend",
                        "ctr", "cpc", "cpm", "results", "lp_views", "add_to_cart",
                        "purchases"]
    let d1 := numericCols.foldl (fun d c => mapCol d c ctx.toNumericCell) df
    let d2 :=
      if dfHasCol d1 "impressions" && dfHasCol d1 "clicks" && !dfHasCol d1 "ctr" then
        dictInsert d1 "ctr"
          (zipColsWith ctrElem (getColFirst d1 "impressions") (getColFirst d1 "clicks"))
      else d1
    let d3 :=
      if dfHasCol d2 "spend" && dfHasCol d2 "clicks" && !dfHasCol d2 "cpc" then
        dictInsert d2 "cpc"
          (zipColsWith cpcElem (getColFirst d2 "clicks") (getColFirst d2 "spend"))
      else d2
    let d4 :=
      if dfHasCol d3 "spend" && dfHasCol d3 "impressions" && !dfHasCol d3 "cpm" then
        dictInsert d3 "cpm"
          (zipColsWith cpmElem (getColFirst d3 "impressions") (getColFirst d3 "spend"))
      else d3
    d4

/-- `df["result_indicator"].fillna("").str.lower() == alias` on one cell:
null becomes the empty string, non-strings become NaN and never compare
equal. -/
def indicatorMatches (v : Value) (al : String) : Bool :=
  match v with
  | .null => "" == al
  | .s t => strLower t == al
  | _ => false

/-- Three-list zip used for masked assignment. -/
def zipWith3 {α β γ δ : Type} (f : α → β → γ → δ) : List α → List β → List γ → List δ
  | a :: as, b :: bs, c :: cs => f a b c :: zipWith3 f as bs cs
  | _, _, _ => []

/-- pandas `df.loc[mask, target] = vals`: update the masked rows, creating the
column (null outside the mask) when it does not exist. -/
def locSetMasked (df : DataFrame) (target : String) (mask : List Bool)
    (vals : List Value) : DataFrame :=
  match getColFirst df target with
  | some old => dictInsert df target (zipWith3 (fun m o v => if m then v else o) mask old vals)
  | none => dictInsert df target (List.zipWith (fun m v => if m then v else Value.null) mask vals)

/-- One iteration of the for/else loop of `normalize_funnel_columns`
(lines 233-242): bind the funnel target to the first matching alias column, or
fill it with the constant 0 when no alias matches and the column is absent. -/
def aliasStep (normCols : List String) (d : DataFrame) (p : String × List String) :
    DataFrame :=
  match p.2.findSome? (fun al => lookupNormLast normCols (normalize_text al)) with
  | some src => dictInsert d p.1 ((getColFirst d src).getD [])
  | none =>
    if (dfCols d).contains p.1 then d
    else dictInsert d p.1 (List.replicate (nrows d) (Value.n 0))

/-- The for/else loop of `normalize_funnel_columns` over the three funnel
targets (the `normalized_columns` dict is built once from the original
headers). -/
def funnelAliasPhase (df : DataFrame) : DataFrame :=
  funnel_column_aliases.foldl (aliasStep (dfCols df)) df

/-- One iteration of the `result_indicator` loop (lines 247-250): when the
match mask is non-empty, overwrite the masked rows of the target column with
the (possibly null) numeric-coerced `results` values. -/
def indicatorStep (d : DataFrame) (p : String × String) : DataFrame :=
  let mask := ((getColFirst d "result_indicator").getD []).map
    (fun v => indicatorMatches v p.1)
  if mask.any id then locSetMasked d p.2 mask ((getColFirst d "results").getD [])
  else d

/-- Guard and fold of the `result_indicator` pass (lines 244-250). -/
def funnelIndicatorPhase (ctx : PyCtx) (df : DataFrame) : DataFrame :=
  if dfHasCol df "result_indicator" && dfHasCol df "results" then
    funnel_indicator_aliases.foldl indicatorStep (mapCol df "results" ctx.toNumericCell)
  else df

/-- `AdsDataProcessor.normalize_funnel_columns` (lines 225-252). -/
def normalize_funnel_columns (ctx : PyCtx) (df : DataFrame) : DataFrame :=
  if dfEmpty df then df
  else funnelIndicatorPhase ctx (funnelAliasPhase df)

/-- `AdsDataProcessor.identify_dataset_type` (lines 174-186). -/
def identify_dataset_type (df : DataFrame) : Option String :=
  let ns := (dfCols df).map normalize_text
  if ns.contains "timeofdayviewerstimezone" || ns.contains "timeofday" then
    some "days_time"
  else if ns.contains "placement" || ns.contains "platform" then
    some "days_placement_device"
  else if (ns.contains "adsetname" && ns.contains "date")
      || (ns.contains "reportingstarts" && ns.contains "adsetname") then
    some "days"
  else none

/- ------------------------------------------------------------------ -/
/- app.py : show lookup and show-identifier matching                   -/
/- ------------------------------------------------------------------ -/

/-- A row of the consolidated sales dataframe as `_build_show_lookup` reads
it: `city`, `show_sequence` (float with NaN, truncated to int after
`fillna(1)`), `show_id`. -/
structure SalesRow where
  city : Option String
  show_sequence : Option Int
  show_id : String
deriving DecidableEq

/-- The ShowIndex: normalized city → (sequence → show id), insertion
ordered. -/
abbrev ShowLookup := List (String × List (Int × String))

/-- `lookup.setdefault(city_key, {})[sequence] = show_id` (line 342):
update the city's inner dict in place, or append a fresh one. -/
def lookupInsert (l : ShowLookup) (city : String) (seq : Int) (sid : String) :
    ShowLookup :=
  match dictFind l city with
  | some seqs => dictInsert l city (dictInsert seqs seq sid)
  | none => l ++ [(city, [(seq, sid)])]

/-- Loop body of `_build_show_lookup` (lines 338-342): normalize the city,
default the sequence to 1, skip empty city keys. -/
def buildLookupStep (l : ShowLookup) (r : SalesRow) : ShowLookup :=
  let ck := normalize_text (r.city.getD "")
  if ck == "" then l
  else lookupInsert l ck (r.show_sequence.getD 1) r.show_id

/-- `AdsDataProcessor._build_show_lookup` (lines 329-343). -/
def build_show_lookup (sales : List SalesRow) : ShowLookup :=
  sales.foldl buildLookupStep []

/-- Leftmost match of `#\s*(\d{1,2})` over the lowered text (first sequence
regex of `_fallback_show_match`, line 380). -/
def findHashSeq : List Char → Option Int
  | [] => none
  | '#' :: rest =>
    (match rest.dropWhile pyIsSpaceChar with
     | d1 :: r3 =>
       if d1.isDigit then
         some (match r3 with
               | d2 :: _ => if d2.isDigit then digitVal d1 * 10 + digitVal d2
                            else digitVal d1
               | [] => digitVal d1)
       else findHashSeq rest
     | [] => none)
  | _ :: rest => findHashSeq rest

/-- `\d{1,2}\b` with greedy backtracking: two digits when a boundary follows,
else one digit with a boundary, else no match. -/
def tryDigitsB : List Char → Option Int
  | [] => none
  | d1 :: rest =>
    if d1.isDigit then
      match rest with
      | [] => some (digitVal d1)
      | d2 :: rest2 =>
        if d2.isDigit then
          (match rest2 with
           | [] => some (digitVal d1 * 10 + digitVal d2)
           | c :: _ => if wordChar c then none else some (digitVal d1 * 10 + digitVal d2))
        else if wordChar d2 then none
        else some (digitVal d1)
    else none

/-- Scan for `\b(?:show|s)(\d{1,2})\b` over the lowered text (second sequence
regex, line 382); `prevWord` tracks the `\b` condition on the left. If the
`show` branch fails its digits, the `s` branch at the same position needs a
digit at `h` and fails too. -/
def findWordSeqGo (prevWord : Bool) : List Char → Option Int
  | [] => none
  | c :: rest =>
    let here :=
      if prevWord then none
      else if c == 's' then
        match rest with
        | 'h' :: 'o' :: 'w' :: r2 =>
          (match tryDigitsB r2 with
           | some k => some k
           | none => tryDigitsB rest)
        | _ => tryDigitsB rest
      else none
    match here with
    | some k => some k
    | none => findWordSeqGo (wordChar c) rest

/-- Sequence extraction of `_fallback_show_match` (lines 379-384): default 1,
first the `#n` pattern, then the `show n`/`s n` pattern, on `text.lower()`. -/
def extractSequence (text : String) : Int :=
  let lowered := text.toList.map Char.toLower
  match findHashSeq lowered with
  | some k => k
  | none =>
    match findWordSeqGo false lowered with
    | some k => k
    | none => 1

/-- The city scan of `_fallback_show_match` (lines 386-392): first entry, in
insertion order, whose non-empty key is a substring of the normalized text;
exact sequence else the city's first sequence (the source's
`next(iter(sequences.values()))`, which would raise on an empty inner dict —
never produced by `build_show_lookup`). -/
def fallbackLoop (nt : String) (seq : Int) : ShowLookup → Option String
  | [] => none
  | (ck, seqs) :: rest =>
    if ck != "" && containsSub ck nt then
      match dictFind seqs seq with
      | some sid => some sid
      | none => seqs.head?.map Prod.snd
    else fallbackLoop nt seq rest

/-- `AdsDataProcessor._fallback_show_match` (lines 372-392). -/
def fallback_show_match (text : String) (lookup : ShowLookup) : Option String :=
  if lookup.isEmpty then none
  else fallbackLoop (normalize_text text) (extractSequence text) lookup

/-- Optional `(?:_S\d+)?` suffix, greedy: taken only when `_S` is followed by
at least one digit, consuming all digits. -/
def optSeqSuffix (cs : List Char) : List Char :=
  match cs with
  | '_' :: 'S' :: d :: rest =>
    if d.isDigit then '_' :: 'S' :: d :: rest.takeWhile Char.isDigit else []
  | _ => []

/-- `_\d{4}` followed by the optional suffix, for the unanchored search. -/
def showTailM (cs : List Char) : Option (List Char) :=
  match cs with
  | '_' :: d1 :: d2 :: d3 :: d4 :: rest =>
    if d1.isDigit && d2.isDigit && d3.isDigit && d4.isDigit then
      some ('_' :: d1 :: d2 :: d3 :: d4 :: optSeqSuffix rest)
    else none
  | _ => none

/-- Attempt of `[A-Z]{2,3}_\d{4}(?:_S\d+)?` at one position (greedy three
letters; when the third character is a letter the two-letter backtrack can
never reach the required underscore). -/
def tryShowIdAt (cs : List Char) : Option (List Char) :=
  match cs with
  | a :: b :: rest =>
    if pyIsUpper a && pyIsUpper b then
      match rest with
      | c :: rest2 =>
        if pyIsUpper c then (showTailM rest2).map (fun t => a :: b :: c :: t)
        else (showTailM rest).map (fun t => a :: b :: t)
      | [] => none
    else none
  | _ => none

/-- Leftmost match of the show-id search pattern. -/
def scanShowId : List Char → Option String
  | [] => none
  | c :: rest =>
    match tryShowIdAt (c :: rest) with
    | some m => some (String.mk m)
    | none => scanShowId rest

/-- `AdsDataProcessor._extract_show_id_from_text` (lines 363-367):
`re.search(r"([A-Z]{2,3}_\d{4}(?:_S\d+)?)", text.upper())`. -/
def extract_show_id_from_text (text : String) : Option String :=
  scanShowId (text.toList.map Char.toUpper)

/-- Python `str(...)` of a cell as seen by `_match_show_identifier`:
`str(nan)` is `"nan"`; floats and timestamps go through the repr oracles. -/
def pyStr (ctx : PyCtx) (v : Value) : String :=
  match v with
  | .s t => t
  | .n q => ctx.reprNum q
  | .d t => ctx.reprDate t
  | .null => "nan"

/-- `str(row.get(col, ""))`: the default covers a missing column. -/
def pyStrGet (ctx : PyCtx) (o : Option Value) : String :=
  match o with
  | none => ""
  | some v => pyStr ctx v

/-- `AdsDataProcessor._match_show_identifier` (lines 345-361) for one row,
`get` reading the row's cells by column name. -/
def match_show_identifier (ctx : PyCtx) (get : String → Option Value)
    (lookup : ShowLookup) : Option String :=
  let cands := [pyStrGet ctx (get "campaign_name"), pyStrGet ctx (get "ad_set_name"),
                pyStrGet ctx (get "ad_name")]
  let merged := " ".intercalate (cands.filter (fun t => t != ""))
  if merged == "" then none
  else
    match extract_show_id_from_text merged with
    | some sid => some sid
    | none => fallback_show_match merged lookup

/-- `AdsDataProcessor.enrich_ads_dataframe` (lines 300-327): coerce/derive the
`date` column, normalize `ad_set_name`/`campaign_name`, build the ShowIndex
from the sales rows and append the per-row `matched_show_id` column. -/
def enrich_ads_dataframe (ctx : PyCtx) (df : DataFrame) (sales : List SalesRow) :
    DataFrame :=
  if dfEmpty df then df
  else
    let d1 :=
      if dfHasCol df "date" then mapCol df "date" ctx.toDatetimeCell
      else if dfHasCol df "reporting_starts" then
        dictInsert df "date"
          (((getColFirst df "reporting_starts").getD []).map ctx.toDatetimeCell)
      else df
    let d2 :=
      if !dfHasCol d1 "ad_set_name" && dfHasCol d1 "ad set name" then
        renameCols d1 [("ad set name", "ad_set_name")]
      else d1
    let d3 :=
      if !dfHasCol d2 "campaign_name" && dfHasCol d2 "campaign" then
        dictInsert d2 "campaign_name" ((getColFirst d2 "campaign").getD [])
      else d2
    let d4 :=
      if !dfHasCol d3 "campaign_name" then
        dictInsert d3 "campaign_name"
          (match getColFirst d3 "ad_set_name" with
           | some v => v
           | none => List.replicate (nrows d3) Value.null)
      else d3
    let lookup := build_show_lookup sales
    let matched := (List.range (nrows d4)).map (fun i =>
      match match_show_identifier ctx
        (fun c => (getColFirst d4 c).bind (fun col => col.get? i)) lookup with
      | some sid => Value.s sid
      | none => Value.null)
    dictInsert d4 "matched_show_id" matched

/- ------------------------------------------------------------------ -/
/- app.py : funnel aggregation and multi-file processing               -/
/- ------------------------------------------------------------------ -/

/-- The `FunnelSummary` dataclass (lines 27-49); the six metrics are group
sums, `show_id` is the group key. -/
structure FunnelSummary where
  show_id : Value
  spend : ℚ
  impressions : ℚ
  clicks : ℚ
  lp_views : ℚ
  add_to_cart : ℚ
  purchases : ℚ
deriving DecidableEq

/-- Numeric content of a cell for a skip-NaN pandas sum. -/
def numOf : Value → ℚ
  | .n q => q
  | _ => 0

/-- Sum of a metric column over the rows whose key cell equals `k`. -/
def groupSum (keyCol col : List Value) (k : Value) : ℚ :=
  ((keyCol.zip col).filter (fun p => p.1 == k)).foldl (fun acc p => acc + numOf p.2) 0

/-- Constructor-then-value order used to model the sorted group keys of
`groupby` (pandas raises on incomparable mixed keys; realistic keys are all
strings). -/
def valueRank : Value → Nat
  | .n _ => 0
  | .s _ => 1
  | .d _ => 2
  | .null => 3

/-- Ordering on group keys. -/
def valueLe (a b : Value) : Bool :=
  match a, b with
  | .n x, .n y => decide (x ≤ y)
  | .s x, .s y => decide (x ≤ y)
  | .d x, .d y => decide (x ≤ y)
  | _, _ => decide (valueRank a ≤ valueRank b)

/-- Insertion step of a stable insertion sort. -/
def insertSorted (x : Value) : List Value → List Value
  | [] => [x]
  | y :: rest => if valueLe x y then x :: y :: rest else y :: insertSorted x rest

/-- Stable insertion sort by `valueLe`. -/
def sortValues (l : List Value) : List Value := l.foldr insertSorted []

/-- `AdsDataProcessor.calculate_funnel_summary` (lines 394-435): fill the
missing required columns with 0, group by the non-null `matched_show_id`
keys (sorted, as `groupby` does), sum the six metrics per group and keep the
groups with a truthy key. -/
def calculate_funnel_summary (df : DataFrame) : List (Value × FunnelSummary) :=
  if dfEmpty df then []
  else
    let requiredCols := ["matched_show_id", "spend", "impressions", "clicks",
                         "lp_views", "add_to_cart", "purchases"]
    let d := requiredCols.foldl (fun d c =>
      if dfHasCol d c then d else dictInsert d c (List.replicate (nrows d) (Value.n 0))) df
    let keyCol := (getColFirst d "matched_show_id").getD []
    let keys := sortValues ((keyCol.filter (fun v => v != Value.null)).dedup)
    keys.foldl (fun acc k =>
      if !k.truthy then acc
      else
        acc ++ [(k,
          { show_id := k
            spend := groupSum keyCol ((getColFirst d "spend").getD []) k
            impressions := groupSum keyCol ((getColFirst d "impressions").getD []) k
            clicks := groupSum keyCol ((getColFirst d "clicks").getD []) k
            lp_views := groupSum keyCol ((getColFirst d "lp_views").getD []) k
            add_to_cart := groupSum keyCol ((getColFirst d "add_to_cart").getD []) k
            purchases := groupSum keyCol ((getColFirst d "purchases").getD []) k })]) []

/-- One uploaded file, already parsed by `pd.read_csv`/`pd.read_excel`
(the byte-level read is outside the model): name plus dataframe. -/
structure UploadedFile where
  name : String
  df : DataFrame
deriving DecidableEq

/-- Per-file pipeline of the `process_ads_files` loop (lines 260-279):
normalize columns, fill KPIs, normalize funnel columns, detect the dataset
type, and tag the rows with the source file name. Returns the detected type
with the processed table, or nothing when the type is unrecognized (the file
is then only reported in the UI warning). -/
def processFile (ctx : PyCtx) (f : UploadedFile) : Option (String × DataFrame) :=
  let df3 := normalize_funnel_columns ctx
    (calculate_missing_kpis ctx (detect_and_normalize_columns f.df))
  match identify_dataset_type df3 with
  | some t => some (t, dictInsert df3 "source_file"
      (List.replicate (nrows df3) (Value.s f.name)))
  | none => none

/-- One iteration of the upload loop: store the processed table under its
detected type (overwriting any earlier file of that type), or skip the file. -/
def uploadStep (ctx : PyCtx) (acc : List (String × DataFrame)) (f : UploadedFile) :
    List (String × DataFrame) :=
  match processFile ctx f with
  | some (t, df) => dictInsert acc t df
  | none => acc

/-- The `data_by_type` dict after the upload loop: later files of the same
detected type overwrite earlier ones. -/
def buildDataByType (ctx : PyCtx) (files : List UploadedFile) :
    List (String × DataFrame) :=
  files.foldl (uploadStep ctx) []

/-- `required_types` (line 283); a Python set, only its difference from the
collected keys matters. -/
def requiredTypes : List String := ["days", "days_placement_device", "days_time"]

/-- The `missing_types` set (line 284). -/
def missingTypes (ctx : PyCtx) (files : List UploadedFile) : List String :=
  requiredTypes.filter (fun t => (dictFind (buildDataByType ctx files) t).isNone)

/-- The fixed `ValueError` message of lines 286-289. -/
def missingFilesMsg : String :=
  "Missing required files. Please upload reports that match the 'Days', 'Days + Placement + Device', and 'Days + Time' exports."

/-- The last uploaded file of a detected type, with its processed table — what
`data_by_type` retains for that type. -/
def lastUploadOfType (ctx : PyCtx) (files : List UploadedFile) (t : String) :
    Option DataFrame :=
  files.reverse.findSome? (fun f =>
    match processFile ctx f with
    | some (t2, df) => if t2 = t then some df else none
    | none => none)

/-- `AdsDataProcessor.process_ads_files` (lines 254-298): collect the typed
tables (last file of a type wins), raise the fixed `ValueError` when a
required type is missing, then enrich the `days` table and aggregate the
funnel from it. The `st.warning` about unreadable files is UI-only and not
modelled. The inner `days` lookup cannot fail once `missing` is empty. -/
def process_ads_files (ctx : PyCtx) (files : List UploadedFile)
    (sales : List SalesRow) :
    Except String (List (String × DataFrame) × List (Value × FunnelSummary)) :=
  if (requiredTypes.filter
      (fun t => (dictFind (buildDataByType ctx files) t).isNone)).isEmpty then
    match dictFind (buildDataByType ctx files) "days" with
    | some ddf =>
      .ok (dictInsert (buildDataByType ctx files) "days"
            (enrich_ads_dataframe ctx ddf sales),
          calculate_funnel_summary (enrich_ads_dataframe ctx ddf sales))
    | none => .error missingFilesMsg
  else .error missingFilesMsg

/- ------------------------------------------------------------------ -/
/- Spec-facing helpers and concrete instances used by the theorems     -/
/- ------------------------------------------------------------------ -/

/-- ShowIndex access: city key then sequence. -/
def lookupShow (l : ShowLookup) (city : String) (seq : Int) : Option String :=
  match dictFind l city with
  | some seqs => dictFind seqs seq
  | none => none

/-- What the alias phase is expected to leave in a funnel target column,
stated against the original dataframe: the data of the first matching alias
column, else a zero fill. -/
def expectedFunnelCol (df : DataFrame) (aliases : List String) : List Value :=
  match aliases.findSome? (fun al => lookupNormLast (dfCols df) (normalize_text al)) with
  | some src => (getColFirst df src).getD []
  | none => List.replicate (nrows df) (Value.n 0)

/-- Natural number denoted by a list of ASCII digits. -/
def natOfDigits (cs : List Char) : ℕ :=
  cs.foldl (fun a c => a * 10 + (c.toNat - 48)) 0

/-- Plain decimal parser (optional minus sign, digits, optional fraction):
a concrete stand-in for Python `float()` on cleaned numeric strings. -/
def parseDecimal (str : String) : Option ℚ :=
  let cs := str.toList
  let core := fun (cs2 : List Char) =>
    let ip := cs2.takeWhile Char.isDigit
    let r2 := cs2.dropWhile Char.isDigit
    match r2 with
    | [] => if ip.isEmpty then none else some ((natOfDigits ip : ℚ))
    | '.' :: fp =>
      if fp.all Char.isDigit && !(ip.isEmpty && fp.isEmpty) then
        some ((natOfDigits ip : ℚ) + (natOfDigits fp : ℚ) / ((10 : ℚ) ^ fp.length))
      else none
    | _ => none
  match cs with
  | '-' :: rest => (core rest).map (fun q => -q)
  | _ => core cs

/-- Plain `YYYY-MM-DD` parser: a concrete stand-in for `pd.to_datetime` in
the oracle instance below. -/
def parseIsoDate (str : String) : Option Int :=
  match str.toList with
  | [y1, y2, y3, y4, '-', m1, m2, '-', d1, d2] =>
    if [y1, y2, y3, y4, m1, m2, d1, d2].all Char.isDigit then
      some (Int.ofNat (natOfDigits [y1, y2, y3, y4] * 10000 +
        natOfDigits [m1, m2] * 100 + natOfDigits [d1, d2]))
    else none
  | _ => none

/-- Numeric coercion on one cell consistent with
`pd.to_numeric(errors="coerce")`: numbers kept, parseable strings parsed,
everything else NaN. -/
def toNumericSimple (v : Value) : Value :=
  match v with
  | .n q => .n q
  | .s t => (match parseDecimal t with | some q => .n q | none => .null)
  | _ => .null

/-- Datetime coercion on one cell consistent with
`pd.to_datetime(errors="coerce")` for ISO dates. -/
def toDatetimeSimple (v : Value) : Value :=
  match v with
  | .d t => .d t
  | .s t => (match parseIsoDate t with | some d => .d d | none => .null)
  | _ => .null

/-- Concrete oracle instance used by witnesses and counterexamples: decimal
number parsing, ISO date parsing, a failed rate refresh (static fallbacks
apply) and fixed reprs. -/
def ctx0 : PyCtx :=
  { toNumericCell := toNumericSimple
    toDatetimeCell := toDatetimeSimple
    strToFloat := parseDecimal
    parseDate := parseIsoDate
    dateParseOk := fun t => (parseIsoDate t).isSome
    rates := fun _ => none
    reprNum := fun _ => "0.0"
    reprDate := fun _ => "1970-01-01"
    nowIso := "2026-10-12T00:00:00" }

/-- An 18-cell show row in the sheet's layout. -/
def sampleRow : List String :=
  ["WDC_0927", "2025-09-27", "2025-09-01", "27.Washington DC", "5000", "100",
   "20", "10", "50", "0", "1000", "1200", "500", "4500", "4500", "9%",
   "3", "note"]

/-- Raw rows preceding an `endRow` marker. -/
def c8prefixRows : List (List String) := [["September"], sampleRow]

/-- Raw rows placed after the `endRow` marker. -/
def c8afterRows : List (List String) := [["ABC_1111", "2025-10-01"], ["1 (+2) 3"]]

/-- Two sales rows whose cities normalize identically. -/
def c3rows : List SalesRow :=
  [⟨some "Boston", none, "BOS_0101"⟩, ⟨some "Boston!", none, "BOS_0202"⟩]

/-- Sales rows for a short city inserted before a longer one containing it. -/
def c4rows : List SalesRow :=
  [⟨some "York", none, "YRK_0101"⟩, ⟨some "New York", none, "NYC_0202"⟩]

/-- Headers with a device-platform dimension but no placement/platform
column. -/
def c5deviceDf : DataFrame :=
  [("Date", [Value.s "2025-01-01"]), ("Ad set name", [Value.s "a"]),
   ("Device platform", [Value.s "mobile"])]

/-- Headers with date and campaign markers but no ad-set marker. -/
def c5campaignDf : DataFrame :=
  [("Date", [Value.s "2025-01-01"]), ("Campaign name", [Value.s "c"])]

/-- Headers with a placement dimension. -/
def c5placementDf : DataFrame := [("placement", [Value.s "feed"])]

/-- A days-shaped upload. -/
def daysFile : UploadedFile :=
  ⟨"days.csv", [("date", [Value.s "2025-01-01"]), ("ad set name", [Value.s "a"])]⟩

/-- A second days-shaped upload with different rows. -/
def daysFile2 : UploadedFile :=
  ⟨"days2.csv", [("date", [Value.s "2025-01-02"]), ("ad set name", [Value.s "w"])]⟩

/-- A days-placement-device-shaped upload. -/
def dpdFile : UploadedFile := ⟨"dpd.csv", [("placement", [Value.s "feed"])]⟩

/-- A days-time-shaped upload. -/
def timeFile : UploadedFile := ⟨"time.csv", [("time of day", [Value.s "morning"])]⟩

/-- An upload with only a days-shaped and a days-time-shaped file. -/
def c1files : List UploadedFile := [daysFile, timeFile]

/-- An upload with two days-shaped files plus the other two types. -/
def c9files : List UploadedFile := [daysFile, daysFile2, dpdFile, timeFile]

/-- The successful output of processing `c9files`. -/
def c9pair : List (String × DataFrame) × List (Value × FunnelSummary) :=
  (process_ads_files ctx0 c9files []).toOption.getD ([], [])

/-- A dataframe whose `result_indicator` pass overwrites a zero-filled funnel
column with a NaN-coerced `results` value. -/
def c10df : DataFrame :=
  [("result_indicator", [Value.s "purchases"]), ("results", [Value.s "abc"])]

/-- A dataframe with an `f1` funnel alias column and no indicator columns. -/
def c10aliasDf : DataFrame := [("f1", [Value.n 5]), ("x", [Value.s "a"])]

/- ------------------------------------------------------------------ -/
/- Shared lemmas                                                       -/
/- ------------------------------------------------------------------ -/

/-- Lookup after a dict assignment. -/
theorem dictFind_dictInsert {α β : Type} [DecidableEq α] (l : List (α × β))
    (k k' : α) (v : β) :
    dictFind (dictInsert l k v) k' = if k' = k then some v else dictFind l k' := by
  induction l with
  | nil =>
    by_cases h : k' = k
    · subst h; simp [dictInsert, dictFind]
    · simp [dictInsert, dictFind, h, Ne.symm h]
  | cons p rest ih =>
    by_cases h1 : p.1 = k
    · subst h1
      by_cases h2 : k' = p.1
      · subst h2; simp [dictInsert, dictFind]
      · simp [dictInsert, dictFind, h2, Ne.symm h2]
    · by_cases h2 : k' = p.1
      · subst h2
        simp [dictInsert, dictFind, h1, Ne.symm h1]
      · simp [dictInsert, dictFind, h1, h2, Ne.symm h2, ih]

/-- Lookup over an appended dict. -/
theorem dictFind_append {α β : Type} [DecidableEq α] (l1 l2 : List (α × β)) (k : α) :
    dictFind (l1 ++ l2) k = (dictFind l1 k).or (dictFind l2 k) := by
  induction l1 with
  | nil => simp [dictFind]
  | cons p rest ih =>
    by_cases h : p.1 = k <;> simp [dictFind, h, ih]

/-- Column access agrees with dict lookup. -/
theorem getColFirst_eq_dictFind (df : DataFrame) (c : String) :
    getColFirst df c = dictFind df c := by
  induction df with
  | nil => rfl
  | cons p rest ih =>
    by_cases h : p.1 = c
    · simp [getColFirst, dictFind, List.find?_cons, h]
    · simp only [getColFirst, dictFind, List.find?_cons]
      rw [show (p.1 == c) = false by simp [h]]
      simpa [getColFirst, h] using ih

/- ------------------------------------------------------------------ -/
/- C2 : performance_category bucket boundaries                        -/
/- ------------------------------------------------------------------ -/

/-- C2 counterexample: `pd.cut` with default `right=True` produces
right-closed buckets, so occupancy exactly 50 is Underperforming (the claim
says Developing), 75 is Developing (claim: Strong) and 90 is Strong (claim:
Sold Out); a show at capacity 100 with 50 sold lands in Underperforming. -/
theorem c2_bucket_boundaries_counterexample :
    performance_category (some 50) = some "Underperforming" ∧
    performance_category (some 50) ≠ some "Developing" ∧
    performance_category (some 75) = some "Developing" ∧
    performance_category (some 75) ≠ some "Strong" ∧
    performance_category (some 90) = some "Strong" ∧
    performance_category (some 90) ≠ some "Sold Out" ∧
    occupancy_rate (some 100) (some 50) = some 50 := by
  refine ⟨by decide, by decide, by decide, by decide, by decide, by decide, ?_⟩
  unfold occupancy_rate
  norm_num

/-- C2 (amended): the buckets are right-closed — [0,50] Underperforming,
(50,75] Developing, (75,90] Strong, (90,100] Sold Out — so 50 is
Underperforming, 75 Developing and 90 Strong; occupancies outside [0,100]
and missing occupancies receive no category. -/
theorem c2_bucket_boundaries (x : ℚ) :
    (performance_category (some x) = some "Underperforming" ↔ 0 ≤ x ∧ x ≤ 50) ∧
    (performance_category (some x) = some "Developing" ↔ 50 < x ∧ x ≤ 75) ∧
    (performance_category (some x) = some "Strong" ↔ 75 < x ∧ x ≤ 90) ∧
    (performance_category (some x) = some "Sold Out" ↔ 90 < x ∧ x ≤ 100) ∧
    performance_category none = none := by
  have hx : performance_category (some x) =
      (if x < 0 then none
       else if x ≤ 50 then some "Underperforming"
       else if x ≤ 75 then some "Developing"
       else if x ≤ 90 then some "Strong"
       else if x ≤ 100 then some "Sold Out"
       else none) := rfl
  refine ⟨?_, ?_, ?_, ?_, rfl⟩ <;>
    (constructor
     · intro h
       rw [hx] at h
       split_ifs at h <;>
         first
         | exact absurd h (by decide)
         | (constructor <;> linarith)
     · rintro ⟨ha, hb⟩
       rw [hx]
       split_ifs <;>
         first
         | rfl
         | (exfalso; linarith))

/- ------------------------------------------------------------------ -/
/- C7 : rolling 7-day average with fewer than 7 snapshots             -/
/- ------------------------------------------------------------------ -/

/-- C7: for a show with n < 7 chronologically ordered `today_sold`
observations, the final `avg_sales_last_7_days` value is the mean over
exactly those n observations — the divisor is n, never an unconditional 7. -/
theorem c7_rolling_mean_small_window (obs : List ℚ) (hne : obs ≠ [])
    (hlen : obs.length < 7) :
    (rollingMean7 obs).getLast? = some (obs.sum / (obs.length : ℚ)) := by
  have hpos : 0 < obs.length := List.length_pos.mpr hne
  unfold rollingMean7
  rw [List.getLast?_eq_getElem?]
  simp only [List.length_map, List.length_range, List.getElem?_map,
    List.getElem?_range (Nat.sub_lt hpos Nat.one_pos), Option.map_some']
  have hidx : obs.length - 1 + 1 = obs.length := Nat.succ_pred_eq_of_pos hpos
  rw [hidx, List.take_length,
    List.take_of_length_le (by simpa using Nat.le_of_lt hlen),
    List.sum_reverse, List.length_reverse]

/-- C7 witness: a two-report show averages over 2 observations. -/
theorem c7_rolling_mean_witness :
    (rollingMean7 [2, 4]).getLast? =
      some (List.sum [(2 : ℚ), 4] / ((List.length [(2 : ℚ), 4] : ℚ))) :=
  c7_rolling_mean_small_window [2, 4] (by decide) (by decide)

/- ------------------------------------------------------------------ -/
/- C5 : dataset-type detection priority                               -/
/- ------------------------------------------------------------------ -/

/-- C5 counterexample: a report with a device-platform column (and no
time-of-day column) is NOT classified `days_placement_device` — only exact
`placement`/`platform` headers trigger that branch — it falls through to
`days`; and date+campaign markers without an ad-set marker produce null, not
`days`. -/
theorem c5_device_column_counterexample :
    identify_dataset_type c5deviceDf = some "days" ∧
    identify_dataset_type c5deviceDf ≠ some "days_placement_device" ∧
    identify_dataset_type c5campaignDf = none ∧
    identify_dataset_type c5campaignDf ≠ some "days" := by
  refine ⟨by decide, by decide, by decide, by decide⟩

/-- C5 (amended): rule priority over the normalized headers is — a
time-of-day marker gives `days_time`; else an exact `placement` or `platform`
header gives `days_placement_device` (device-platform or impression-device
columns do not count as markers); else an ad-set-name marker together with a
`date` or `reporting_starts` marker gives `days`; else null. -/
theorem c5_priority_order (df : DataFrame) :
    ((((dfCols df).map normalize_text).contains "timeofdayviewerstimezone"
        || ((dfCols df).map normalize_text).contains "timeofday") = true →
      identify_dataset_type df = some "days_time") ∧
    ((((dfCols df).map normalize_text).contains "timeofdayviewerstimezone"
        || ((dfCols df).map normalize_text).contains "timeofday") = false →
      (((dfCols df).map normalize_text).contains "placement"
        || ((dfCols df).map normalize_text).contains "platform") = true →
      identify_dataset_type df = some "days_placement_device") ∧
    ((((dfCols df).map normalize_text).contains "timeofdayviewerstimezone"
        || ((dfCols df).map normalize_text).contains "timeofday") = false →
      (((dfCols df).map normalize_text).contains "placement"
        || ((dfCols df).map normalize_text).contains "platform") = false →
      ((((dfCols df).map normalize_text).contains "adsetname"
          && ((dfCols df).map normalize_text).contains "date")
        || (((dfCols df).map normalize_text).contains "reportingstarts"
          && ((dfCols df).map normalize_text).contains "adsetname")) = true →
      identify_dataset_type df = some "days") ∧
    ((((dfCols df).map normalize_text).contains "timeofdayviewerstimezone"
        || ((dfCols df).map normalize_text).contains "timeofday") = false →
      (((dfCols df).map normalize_text).contains "placement"
        || ((dfCols df).map normalize_text).contains "platform") = false →
      ((((dfCols df).map normalize_text).contains "adsetname"
          && ((dfCols df).map normalize_text).contains "date")
        || (((dfCols df).map normalize_text).contains "reportingstarts"
          && ((dfCols df).map normalize_text).contains "adsetname")) = false →
      identify_dataset_type df = none) := by
  refine ⟨?_, ?_, ?_, ?_⟩
  · intro h1
    unfold identify_dataset_type
    exact if_pos h1
  · intro h1 h2
    unfold identify_dataset_type
    rw [if_neg (by rw [h1]; exact Bool.false_ne_true), if_pos h2]
  · intro h1 h2 h3
    unfold identify_dataset_type
    rw [if_neg (by rw [h1]; exact Bool.false_ne_true), if_neg (by rw [h2]; exact Bool.false_ne_true), if_pos h3]
  · intro h1 h2 h3
    unfold identify_dataset_type
    rw [if_neg (by rw [h1]; exact Bool.false_ne_true), if_neg (by rw [h2]; exact Bool.false_ne_true), if_neg (by rw [h3]; exact Bool.false_ne_true)]

/-- C5 witness: a placement-only report is classified through the second
rule, and a device-platform report through the third. -/
theorem c5_priority_order_witness :
    identify_dataset_type c5placementDf = some "days_placement_device" ∧
    identify_dataset_type c5deviceDf = some "days" :=
  ⟨(c5_priority_order c5placementDf).2.1 (by decide) (by decide),
   (c5_priority_order c5deviceDf).2.2.1 (by decide) (by decide) (by decide)⟩

/- ------------------------------------------------------------------ -/
/- C3 : ShowIndex city+sequence collisions                             -/
/- ------------------------------------------------------------------ -/

/-- Effect of one `setdefault`/assignment on a ShowIndex lookup. -/
theorem lookupShow_lookupInsert (l : ShowLookup) (c : String) (q : Int)
    (sid : String) (city : String) (seq : Int) :
    lookupShow (lookupInsert l c q sid) city seq =
      if city = c ∧ seq = q then some sid else lookupShow l city seq := by
  by_cases h1 : city = c
  · subst h1
    cases hfc : dictFind l city with
    | some seqs =>
      by_cases h2 : seq = q
      · subst h2
        simp [lookupInsert, lookupShow, hfc, dictFind_dictInsert]
      · simp [lookupInsert, lookupShow, hfc, dictFind_dictInsert, h2]
    | none =>
      by_cases h2 : seq = q
      · subst h2
        simp [lookupInsert, lookupShow, hfc, dictFind_append, dictFind]
      · simp [lookupInsert, lookupShow, hfc, dictFind_append, dictFind, h2, Ne.symm h2]
  · cases hfc : dictFind l c with
    | some seqs =>
      simp [lookupInsert, lookupShow, hfc, dictFind_dictInsert, h1]
    | none =>
      simp [lookupInsert, lookupShow, hfc, dictFind_append, dictFind, h1, Ne.symm h1]

/-- Effect of one loop iteration of `_build_show_lookup` on a lookup. -/
theorem lookupShow_buildStep (init : ShowLookup) (r : SalesRow)
    (city : String) (seq : Int) :
    lookupShow (buildLookupStep init r) city seq =
      if (normalize_text (r.city.getD "") == city && city != "" &&
          (r.show_sequence.getD 1 == seq)) = true
      then some r.show_id else lookupShow init city seq := by
  unfold buildLookupStep
  by_cases hck : normalize_text (r.city.getD "") = ""
  · rw [hck]
    by_cases hcity : city = ""
    · subst hcity
      simp
    · simp [Ne.symm hcity]
  · have hck2 : (normalize_text (r.city.getD "") == "") = false := by
      simp [hck]
    simp only [hck2, Bool.false_eq_true, if_false, lookupShow_lookupInsert]
    by_cases h1 : city = normalize_text (r.city.getD "")
    · by_cases h2 : seq = r.show_sequence.getD 1
      · simp [h1, h2, hck, Ne.symm hck]
      · simp [h1, h2, Ne.symm h2]
    · have hcond : ¬((normalize_text (r.city.getD "") = city ∧ ¬city = "") ∧
          r.show_sequence.getD 1 = seq) := fun hh => h1 hh.1.1.symm
      simp [h1, hcond]

/-- C3 counterexample: two distinct shows colliding on the key
(`boston`, 1); the built index maps the key to the SECOND (later) show, not
the first encountered. -/
theorem c3_collision_counterexample :
    build_show_lookup c3rows = [("boston", [(1, "BOS_0202")])] ∧
    lookupShow (build_show_lookup c3rows) "boston" 1 = some "BOS_0202" ∧
    "BOS_0202" ≠ "BOS_0101" ∧
    (c3rows.get? 0).map SalesRow.show_id = some "BOS_0101" := by
  exact ⟨by decide, by decide, by decide, by decide⟩

/-- C3 (amended): when several sales rows produce the same
(normalized city, sequence) key, the ShowIndex maps that key to the LAST such
row in input order — each later assignment overwrites the earlier one. -/
theorem c3_collision_last_wins (rows : List SalesRow) (city : String) (seq : Int) :
    lookupShow (build_show_lookup rows) city seq =
      (rows.reverse.find? (fun r =>
        normalize_text (r.city.getD "") == city && city != "" &&
          (r.show_sequence.getD 1 == seq))).map SalesRow.show_id := by
  suffices h : ∀ init : ShowLookup,
      lookupShow (rows.foldl buildLookupStep init) city seq =
        ((rows.reverse.find? (fun r =>
          normalize_text (r.city.getD "") == city && city != "" &&
            (r.show_sequence.getD 1 == seq))).map SalesRow.show_id).or
          (lookupShow init city seq) by
    have h0 := h []
    rw [build_show_lookup, h0]
    simp [lookupShow, dictFind]
  intro init
  induction rows generalizing init with
  | nil => simp [List.foldl, lookupShow, dictFind]
  | cons r rest ih =>
    rw [List.foldl_cons, ih, List.reverse_cons, List.find?_append,
      Option.map_or', Option.or_assoc, lookupShow_buildStep]
    cases hp : (normalize_text (r.city.getD "") == city && city != "" &&
        (r.show_sequence.getD 1 == seq)) with
    | true => simp [List.find?, hp]
    | false => simp [List.find?, hp]

/- ------------------------------------------------------------------ -/
/- C4 : fallback city matching order                                   -/
/- ------------------------------------------------------------------ -/

/-- C4 counterexample: the normalized text contains both city keys `york`
and `newyork`; the longest is `newyork`, whose entry is `NYC_0202`, but the
matcher returns `YRK_0101` — it resolves via the FIRST key in the ShowIndex's
insertion order, not the longest. -/
theorem c4_longest_city_counterexample :
    build_show_lookup c4rows =
      [("york", [(1, "YRK_0101")]), ("newyork", [(1, "NYC_0202")])] ∧
    containsSub "york" (normalize_text "New York Show") = true ∧
    containsSub "newyork" (normalize_text "New York Show") = true ∧
    ("newyork" : String).length > ("york" : String).length ∧
    lookupShow (build_show_lookup c4rows) "newyork" 1 = some "NYC_0202" ∧
    fallback_show_match "New York Show" (build_show_lookup c4rows) = some "YRK_0101" ∧
    some "YRK_0101" ≠ some "NYC_0202" := by
  exact ⟨by decide, by decide, by decide, by decide, by decide, by decide, by decide⟩

/-- C4 (amended): the Step-3 fallback resolves via the FIRST entry, in
ShowIndex insertion order, whose non-empty city key is a substring of the
normalized search text — not the longest such key; it returns that city's
entry for the extracted sequence when present, otherwise the city's
first-inserted entry, and null exactly when no entry matches. -/
theorem c4_first_city_wins (text : String) (lookup : ShowLookup) :
    fallback_show_match text lookup =
      match lookup.find? (fun p =>
          p.1 != "" && containsSub p.1 (normalize_text text)) with
      | some p =>
        (match dictFind p.2 (extractSequence text) with
         | some sid => some sid
         | none => p.2.head?.map Prod.snd)
      | none => none := by
  unfold fallback_show_match
  by_cases hemp : lookup.isEmpty
  · rw [if_pos hemp]
    rw [List.isEmpty_iff.mp hemp]
    rfl
  · rw [if_neg hemp]
    induction lookup with
    | nil => rfl
    | cons p rest ih =>
      cases hp : (p.1 != "" && containsSub p.1 (normalize_text text)) with
      | true => simp [fallbackLoop, List.find?, hp]
      | false =>
        simp only [fallbackLoop, List.find?, hp]
        rw [if_neg (by simp)]
        by_cases hre : rest.isEmpty
        · rw [List.isEmpty_iff.mp hre]
          rfl
        · exact ih hre

/- ------------------------------------------------------------------ -/
/- C6 : snapshot builder contract                                      -/
/- ------------------------------------------------------------------ -/

/-- For fields cleaned by the default (string) branch, the result is null or
a non-empty string. -/
theorem clean_cell_default_shape (ctx : PyCtx) (v : Option String) (field : String)
    (h1 : (["sales_to_date"].contains field) = false)
    (h2 : ((["capacity", "venue_holds", "wheelchair_companions", "camera",
            "artists_hold", "kills", "yesterday_sales", "today_sold",
            "total_sold", "remaining", "sold_percentage", "atp"].contains field)
          = false))
    (h3 : ((["show_date", "report_date"].contains field) = false)) :
    clean_cell_value ctx v field = Value.null ∨
      ∃ t, clean_cell_value ctx v field = Value.s t ∧ t ≠ "" := by
  rcases v with _ | raw
  · exact Or.inl rfl
  · simp only [clean_cell_value]
    by_cases hr : (raw == "") = true
    · rw [if_pos hr]
      exact Or.inl rfl
    · simp only [if_neg hr, h1, h2, h3, Bool.false_eq_true, if_false]
      by_cases hsv : (pyStrip raw == "") = true
      · rw [if_pos hsv]
        exact Or.inl rfl
      · rw [if_neg hsv]
        exact Or.inr ⟨pyStrip raw, rfl, by simpa using hsv⟩

/-- The snapshot record built from a ≥18-cell row, before the identifier
check. -/
def builtSnapshot (ctx : PyCtx) (row : List String) (rowIdx : Nat)
    (currentMonth : Option String) : ShowSnapshot :=
  { show_id := clean_cell_value ctx (row.get? 0) "show_id"
    show_date := clean_cell_value ctx (row.get? 1) "show_date"
    report_date := clean_cell_value ctx (row.get? 2) "report_date"
    show_name := clean_cell_value ctx (row.get? 3) "show_name"
    capacity := clean_cell_value ctx (row.get? 4) "capacity"
    venue_holds := clean_cell_value ctx (row.get? 5) "venue_holds"
    wheelchair_companions := clean_cell_value ctx (row.get? 6) "wheelchair_companions"
    camera := clean_cell_value ctx (row.get? 7) "camera"
    artists_hold := clean_cell_value ctx (row.get? 8) "artists_hold"
    kills := clean_cell_value ctx (row.get? 9) "kills"
    yesterday_sales := clean_cell_value ctx (row.get? 10) "yesterday_sales"
    today_sold := clean_cell_value ctx (row.get? 11) "today_sold"
    sales_to_date := clean_cell_value ctx (row.get? 12) "sales_to_date"
    total_sold := clean_cell_value ctx (row.get? 13) "total_sold"
    remaining := clean_cell_value ctx (row.get? 14) "remaining"
    sold_percentage := clean_cell_value ctx (row.get? 15) "sold_percentage"
    atp := clean_cell_value ctx (row.get? 16) "atp"
    report_message := clean_cell_value ctx (row.get? 17) "report_message"
    source_row := rowIdx
    current_month := currentMonth
    extraction_date := ctx.nowIso }

/-- C6: a show row with at least 18 cells whose `show_id` and `show_name`
cells clean to non-null values yields a snapshot carrying exactly those
non-null identifiers; any row with fewer than 18 cells yields no snapshot
(and the builder is total, so nothing is raised). -/
theorem c6_snapshot_contract (ctx : PyCtx) (row : List String) (idx : Nat)
    (month : Option String) :
    (row.length < 18 → extract_show_data ctx row idx month = none) ∧
    (18 ≤ row.length →
      clean_cell_value ctx (row.get? 0) "show_id" ≠ Value.null →
      clean_cell_value ctx (row.get? 3) "show_name" ≠ Value.null →
      ∃ sd, extract_show_data ctx row idx month = some sd ∧
        sd.show_id = clean_cell_value ctx (row.get? 0) "show_id" ∧
        sd.show_name = clean_cell_value ctx (row.get? 3) "show_name" ∧
        sd.show_id ≠ Value.null ∧ sd.show_name ≠ Value.null) := by
  constructor
  · intro h
    unfold extract_show_data
    rw [if_pos h]
  · intro hlen hid hname
    rcases clean_cell_default_shape ctx (row.get? 0) "show_id"
        (by decide) (by decide) (by decide) with h0 | ⟨t0, ht0, hne0⟩
    · exact absurd h0 hid
    rcases clean_cell_default_shape ctx (row.get? 3) "show_name"
        (by decide) (by decide) (by decide) with h3 | ⟨t3, ht3, hne3⟩
    · exact absurd h3 hname
    have htr0 : (clean_cell_value ctx (row.get? 0) "show_id").truthy = true := by
      rw [ht0]
      simpa [Value.truthy] using hne0
    have htr3 : (clean_cell_value ctx (row.get? 3) "show_name").truthy = true := by
      rw [ht3]
      simpa [Value.truthy] using hne3
    have hext : extract_show_data ctx row idx month =
        some (builtSnapshot ctx row idx month) := by
      unfold extract_show_data builtSnapshot
      rw [if_neg (by omega)]
      simp only [htr0, htr3, Bool.not_true, Bool.or_self, Bool.false_eq_true,
        if_false]
    exact ⟨builtSnapshot ctx row idx month, hext, rfl, rfl, hid, hname⟩

/-- C6 witness: the 18-cell sample row produces a snapshot with non-null
identifiers. -/
theorem c6_snapshot_witness :
    ∃ sd, extract_show_data ctx0 sampleRow 5 (some "September") = some sd ∧
      sd.show_id = clean_cell_value ctx0 (sampleRow.get? 0) "show_id" ∧
      sd.show_name = clean_cell_value ctx0 (sampleRow.get? 3) "show_name" ∧
      sd.show_id ≠ Value.null ∧ sd.show_name ≠ Value.null :=
  (c6_snapshot_contract ctx0 sampleRow 5 (some "September")).2
    (by decide) (by decide) (by decide)

/- ------------------------------------------------------------------ -/
/- C8 : endRow terminates the parse                                    -/
/- ------------------------------------------------------------------ -/

/-- The row loop ignores everything from an `end_row`-classified row on,
regardless of the running index and month context. -/
theorem analyzeGo_break (ctx : PyCtx) (r : List String) (hr : r ≠ [])
    (hcls : identify_line_type ctx (firstCellOf r) r = LineType.endRow)
    (xs : List (List String)) :
    ∀ (idx : Nat) (month : Option String) (ys : List (List String)),
      analyzeGo ctx idx month (xs ++ r :: ys) = analyzeGo ctx idx month xs := by
  induction xs with
  | nil =>
    intro idx month ys
    simp only [List.nil_append, analyzeGo]
    rw [if_neg (by simp [hr]), hcls]
  | cons x xs ih =>
    intro idx month ys
    simp only [List.cons_append, analyzeGo]
    by_cases hx : x.isEmpty = true
    · rw [if_pos hx, if_pos hx]
      exact ih _ _ _
    · rw [if_neg hx, if_neg hx]
      cases hcl : identify_line_type ctx (firstCellOf x) x with
      | monthHeader => exact ih _ _ _
      | monthAsterisk => exact ih _ _ _
      | showData =>
        cases hex : extract_show_data ctx x idx month with
        | some sd =>
          show sd :: analyzeGo ctx (idx + 1) month (xs ++ r :: ys) =
            sd :: analyzeGo ctx (idx + 1) month xs
          rw [ih _ _ _]
        | none => exact ih _ _ _
      | endRow => rfl
      | summaryLine => exact ih _ _ _
      | header => exact ih _ _ _
      | unknown => exact ih _ _ _

/-- C8: the parse stops at the first row classified `end_row` (first cell
literally `endRow`): the snapshots extracted from the raw rows coincide with
those of the prefix before that row, for every possible suffix — no later
row is consulted or contributes. -/
theorem c8_endrow_terminates (ctx : PyCtx) (xs ys : List (List String))
    (r : List String) (hr : r ≠ [])
    (hcls : identify_line_type ctx (firstCellOf r) r = LineType.endRow) :
    analyze_rows_minutely ctx (xs ++ r :: ys) = analyze_rows_minutely ctx xs :=
  analyzeGo_break ctx r hr hcls xs 0 none ys

/-- C8 witness: an `endRow` row cuts the parse, whatever follows it. -/
theorem c8_endrow_witness :
    (["endRow"] : List String) ≠ [] ∧
    identify_line_type ctx0 (firstCellOf ["endRow"]) ["endRow"] = LineType.endRow ∧
    analyze_rows_minutely ctx0 (c8prefixRows ++ ["endRow"] :: c8afterRows) =
      analyze_rows_minutely ctx0 c8prefixRows :=
  ⟨by decide, by decide,
   c8_endrow_terminates ctx0 c8prefixRows c8afterRows ["endRow"]
     (by decide) (by decide)⟩

/- ------------------------------------------------------------------ -/
/- C1 and C9 : multi-file processing                                   -/
/- ------------------------------------------------------------------ -/

/-- The `data_by_type` dict holds, for each type, the processed table of the
LAST uploaded file detected as that type. -/
theorem dictFind_buildDataByType (ctx : PyCtx) (files : List UploadedFile)
    (t : String) :
    dictFind (buildDataByType ctx files) t = lastUploadOfType ctx files t := by
  suffices h : ∀ init, dictFind (files.foldl (uploadStep ctx) init) t =
      (lastUploadOfType ctx files t).or (dictFind init t) by
    rw [buildDataByType, h []]
    simp [dictFind]
  intro init
  induction files generalizing init with
  | nil => simp [lastUploadOfType, List.foldl]
  | cons f fs ih =>
    have hsingle : lastUploadOfType ctx [f] t =
        (match processFile ctx f with
         | some p => if p.1 = t then some p.2 else none
         | none => none) := by
      unfold lastUploadOfType
      cases hpf : processFile ctx f with
      | some p =>
        simp only [List.reverse_singleton, List.findSome?, hpf]
        by_cases hq : p.1 = t <;> simp [hq]
      | none => simp [List.findSome?, hpf]
    have hsplit : lastUploadOfType ctx (f :: fs) t =
        (lastUploadOfType ctx fs t).or (lastUploadOfType ctx [f] t) := by
      unfold lastUploadOfType
      rw [List.reverse_cons, List.findSome?_append]
      simp
    have hstep : dictFind (uploadStep ctx init f) t =
        (lastUploadOfType ctx [f] t).or (dictFind init t) := by
      rw [hsingle]
      unfold uploadStep
      cases hpf : processFile ctx f with
      | some p =>
        rw [dictFind_dictInsert]
        by_cases he : t = p.1
        · subst he
          simp
        · simp [he, Ne.symm he]
      | none => simp
    rw [List.foldl_cons, ih, hstep, hsplit, Option.or_assoc]

/-- Branch analysis of `process_ads_files`: the fixed error exactly when a
required type is missing, otherwise success built from the stored `days`
table. -/
theorem process_ads_files_spec (ctx : PyCtx) (files : List UploadedFile)
    (sales : List SalesRow) :
    (missingTypes ctx files ≠ [] →
      process_ads_files ctx files sales = .error missingFilesMsg) ∧
    (missingTypes ctx files = [] →
      ∃ ddf, dictFind (buildDataByType ctx files) "days" = some ddf ∧
        process_ads_files ctx files sales =
          .ok (dictInsert (buildDataByType ctx files) "days"
                (enrich_ads_dataframe ctx ddf sales),
              calculate_funnel_summary (enrich_ads_dataframe ctx ddf sales))) := by
  constructor
  · intro hm
    rw [missingTypes] at hm
    unfold process_ads_files
    rw [if_neg (by simpa using hm)]
  · intro hm
    rw [missingTypes] at hm
    have hdays : ∃ ddf, dictFind (buildDataByType ctx files) "days" = some ddf := by
      cases hfd : dictFind (buildDataByType ctx files) "days" with
      | some ddf => exact ⟨ddf, rfl⟩
      | none =>
        have hmem : "days" ∈ requiredTypes.filter
            (fun t => (dictFind (buildDataByType ctx files) t).isNone) :=
          List.mem_filter.mpr ⟨by simp [requiredTypes], by simp [hfd]⟩
        rw [hm] at hmem
        exact absurd hmem (List.not_mem_nil _)
    obtain ⟨ddf, hddf⟩ := hdays
    refine ⟨ddf, hddf, ?_⟩
    unfold process_ads_files
    rw [if_pos (by simp [hm]), hddf]

/-- C1 counterexample: the upload holding only a days-shaped and a
days-time-shaped file raises a `ValueError` whose message is one fixed
string; that string names the 'Days + Time' export although `days_time` is
present (so it is not an enumeration of exactly the missing types), and an
upload missing all three types produces the identical message. -/
theorem c1_fixed_message_counterexample :
    missingTypes ctx0 c1files = ["days_placement_device"] ∧
    process_ads_files ctx0 c1files [] = .error missingFilesMsg ∧
    containsSub "Days + Time" missingFilesMsg = true ∧
    dictFind (buildDataByType ctx0 c1files) "days_time" ≠ none ∧
    process_ads_files ctx0 [] [] = .error missingFilesMsg := by
  exact ⟨by decide, by rfl, by decide, by decide, by rfl⟩

/-- C1 (amended): `process_ads_files` surfaces a recoverable validation error
(a `ValueError` the caller catches) precisely when at least one of the three
required dataset types is missing, but the error's message is one fixed
string naming all three expected exports — it does not enumerate only the
missing types. In particular the two-file upload of the scenario raises this
fixed error. -/
theorem c1_missing_types_fixed_error (ctx : PyCtx) (files : List UploadedFile)
    (sales : List SalesRow) :
    (missingTypes ctx files ≠ [] ↔
      process_ads_files ctx files sales = .error missingFilesMsg) ∧
    (∀ e, process_ads_files ctx files sales = .error e → e = missingFilesMsg) := by
  obtain ⟨herr, hok⟩ := process_ads_files_spec ctx files sales
  by_cases hm : missingTypes ctx files = []
  · obtain ⟨ddf, _, hokk⟩ := hok hm
    refine ⟨⟨fun h => absurd hm h, fun h => ?_⟩, fun e he => ?_⟩
    · rw [hokk] at h
      cases h
    · rw [hokk] at he
      cases he
  · have herr2 := herr hm
    refine ⟨⟨fun _ => herr2, fun _ => hm⟩, fun e he => ?_⟩
    rw [herr2] at he
    injection he with hh
    exact hh.symm

/-- C1 witness: the two-file upload has a non-empty missing set and raises
the fixed validation error. -/
theorem c1_missing_types_witness :
    missingTypes ctx0 c1files ≠ [] ∧
    process_ads_files ctx0 c1files [] = .error missingFilesMsg :=
  ⟨by decide, (c1_missing_types_fixed_error ctx0 c1files []).1.mp (by decide)⟩

/-- C9: on success, each per-type table is exactly the processed table of the
LAST uploaded file of that type — the earlier duplicate's rows are absent —
and the funnel summary is computed from the (enriched) last `days` table
only, with no warning anywhere in the flow. -/
theorem c9_duplicate_type_last_wins (ctx : PyCtx) (files : List UploadedFile)
    (sales : List SalesRow) (d : List (String × DataFrame))
    (fs : List (Value × FunnelSummary))
    (h : process_ads_files ctx files sales = .ok (d, fs)) :
    (∀ t, t ≠ "days" → dictFind d t = lastUploadOfType ctx files t) ∧
    (∃ ddf, lastUploadOfType ctx files "days" = some ddf ∧
      dictFind d "days" = some (enrich_ads_dataframe ctx ddf sales) ∧
      fs = calculate_funnel_summary (enrich_ads_dataframe ctx ddf sales)) := by
  obtain ⟨herr, hok⟩ := process_ads_files_spec ctx files sales
  by_cases hm : missingTypes ctx files = []
  · obtain ⟨ddf, hddf, hokk⟩ := hok hm
    rw [hokk] at h
    injection h with hpair
    rw [Prod.mk.injEq] at hpair
    obtain ⟨hd, hfs⟩ := hpair
    constructor
    · intro t ht
      rw [← hd, dictFind_dictInsert, if_neg ht, dictFind_buildDataByType]
    · refine ⟨ddf, ?_, ?_, hfs.symm⟩
      · rw [← dictFind_buildDataByType]
        exact hddf
      · rw [← hd, dictFind_dictInsert, if_pos rfl]
  · rw [herr hm] at h
    cases h

/-- C9 witness: with two days-shaped uploads, processing succeeds and the
stored placement table is the one of the last upload of that type. -/
theorem c9_duplicate_type_witness :
    process_ads_files ctx0 c9files [] = .ok c9pair ∧
    dictFind c9pair.1 "days_placement_device" =
      lastUploadOfType ctx0 c9files "days_placement_device" := by
  have h : process_ads_files ctx0 c9files [] = .ok c9pair := by rfl
  exact ⟨h, (c9_duplicate_type_last_wins ctx0 c9files [] c9pair.1 c9pair.2 h).1
    "days_placement_device" (by decide)⟩

/- ------------------------------------------------------------------ -/
/- C10 : funnel column normalization                                   -/
/- ------------------------------------------------------------------ -/

/-- Column presence is lookup success. -/
theorem dfHasCol_eq_isSome (d : DataFrame) (c : String) :
    dfHasCol d c = (dictFind d c).isSome := by
  induction d with
  | nil => rfl
  | cons p rest ih =>
    by_cases h : p.1 = c
    · simp [dfHasCol, dfCols, dictFind, h]
    · simp only [dfHasCol, dfCols, List.map_cons, List.contains_cons, dictFind,
        if_neg h]
      rw [show (c == p.1) = false by simp [Ne.symm h]]
      simpa [dfHasCol, dfCols] using ih

/-- Dict assignment never empties the frame. -/
theorem dictInsert_ne_nil {α β : Type} [DecidableEq α] (l : List (α × β))
    (k : α) (v : β) : dictInsert l k v ≠ [] := by
  cases l with
  | nil => simp [dictInsert]
  | cons p rest =>
    by_cases h : p.1 = k <;> simp [dictInsert, h]

/-- Replacing or appending a full-length column keeps the row count. -/
theorem nrows_dictInsert (d : DataFrame) (k : String) (vals : List Value)
    (hd : d ≠ []) (hv : vals.length = nrows d) :
    nrows (dictInsert d k vals) = nrows d := by
  cases d with
  | nil => exact absurd rfl hd
  | cons p rest =>
    by_cases h : p.1 = k
    · simp [dictInsert, h, nrows, hv.symm, nrows] at hv ⊢
      omega
    · simp [dictInsert, h, nrows]

/-- Column access after a dict assignment. -/
theorem getColFirst_dictInsert (d : DataFrame) (k : String) (vals : List Value)
    (c : String) :
    getColFirst (dictInsert d k vals) c = if c = k then some vals
      else getColFirst d c := by
  rw [getColFirst_eq_dictFind, dictFind_dictInsert, getColFirst_eq_dictFind]

/-- In a rectangular frame every present column has full length. -/
theorem col_length_of_hasCol (df : DataFrame) (c : String)
    (hrect : ∀ p ∈ df, p.2.length = nrows df) (h : dfHasCol df c = true) :
    ∃ v, getColFirst df c = some v ∧ v.length = nrows df := by
  rw [dfHasCol_eq_isSome] at h
  rw [getColFirst_eq_dictFind]
  cases hfd : dictFind df c with
  | none => rw [hfd] at h; cases h
  | some v =>
    refine ⟨v, rfl, ?_⟩
    have hmem : (c, v) ∈ df := by
      clear h hrect
      induction df with
      | nil => cases hfd
      | cons p rest ih =>
        by_cases hpc : p.1 = c
        · rw [dictFind, if_pos hpc] at hfd
          have hp : p = (c, v) := by
            rw [← hpc, ← Option.some_inj.mp hfd]
          rw [← hp]
          exact List.mem_cons_self _ _
        · rw [dictFind, if_neg hpc] at hfd
          exact List.mem_cons_of_mem _ (ih hfd)
    exact hrect _ hmem

/-- `lookupNormLast` returns an existing header with the requested
normalization. -/
theorem lookupNormLast_spec (cols : List String) (key src : String)
    (h : lookupNormLast cols key = some src) :
    src ∈ cols ∧ normalize_text src = key := by
  unfold lookupNormLast at h
  have hmem := List.mem_of_getLast?_eq_some h
  rw [List.mem_filter] at hmem
  exact ⟨hmem.1, by simpa using hmem.2⟩

/-- If every alias misses, a column named like one of the aliases cannot be
present. -/
theorem contains_false_of_findSome_none (cols : List String) (t al0 : String)
    (As : List String) (hal : al0 ∈ As) (hnorm : normalize_text al0 = normalize_text t)
    (hg : As.findSome? (fun al => lookupNormLast cols (normalize_text al)) = none) :
    cols.contains t = false := by
  by_contra hcon
  have hct : cols.contains t = true := by
    revert hcon
    cases cols.contains t <;> simp
  have hmem : t ∈ cols := List.mem_of_elem_eq_true hct
  have hfilter : t ∈ cols.filter (fun c => normalize_text c == normalize_text al0) := by
    rw [List.mem_filter]
    exact ⟨hmem, by simp [hnorm]⟩
  have hne : cols.filter (fun c => normalize_text c == normalize_text al0) ≠ [] :=
    List.ne_nil_of_mem hfilter
  have hsome : (lookupNormLast cols (normalize_text al0)).isSome := by
    unfold lookupNormLast
    simpa [List.getLast?_isSome] using hne
  have hnone := (List.findSome?_eq_none_iff.mp hg) al0 hal
  rw [hnone] at hsome
  cases hsome

/-- The column bound by a successful alias search cannot carry a name whose
normalization none of the aliases has. -/
theorem src_ne_of_findSome (cols : List String) (As : List String) (src nt : String)
    (hg : As.findSome? (fun al => lookupNormLast cols (normalize_text al)) = some src)
    (hall : ∀ al ∈ As, normalize_text al ≠ normalize_text nt) : src ≠ nt := by
  obtain ⟨al, hmem, hal⟩ := List.exists_of_findSome?_eq_some hg
  obtain ⟨_, hnorm⟩ := lookupNormLast_spec cols (normalize_text al) src hal
  intro heq
  subst heq
  exact hall al hmem hnorm.symm

/-- A funnel target's own step always leaves its column present. -/
theorem dfHasCol_aliasStep_self (N : List String) (d : DataFrame)
    (p : String × List String) :
    dfHasCol (aliasStep N d p) p.1 = true := by
  unfold aliasStep
  cases hg : p.2.findSome? (fun al => lookupNormLast N (normalize_text al)) with
  | some src =>
    rw [dfHasCol_eq_isSome, dictFind_dictInsert, if_pos rfl]
    rfl
  | none =>
    by_cases hc : (dfCols d).contains p.1
    · rw [if_pos hc]
      exact hc
    · rw [if_neg hc, dfHasCol_eq_isSome, dictFind_dictInsert, if_pos rfl]
      rfl

/-- A funnel step neither reads from nor affects columns other than its
target. -/
theorem getColFirst_aliasStep_other (N : List String) (d : DataFrame)
    (p : String × List String) (c : String) (hne : c ≠ p.1) :
    getColFirst (aliasStep N d p) c = getColFirst d c := by
  unfold aliasStep
  cases p.2.findSome? (fun al => lookupNormLast N (normalize_text al)) with
  | some src => rw [getColFirst_dictInsert, if_neg hne]
  | none =>
    by_cases hc : (dfCols d).contains p.1
    · rw [if_pos hc]
    · rw [if_neg hc, getColFirst_dictInsert, if_neg hne]

/-- Presence of other columns is untouched by a funnel step. -/
theorem dfHasCol_aliasStep_other (N : List String) (d : DataFrame)
    (p : String × List String) (c : String) (hne : c ≠ p.1) :
    dfHasCol (aliasStep N d p) c = dfHasCol d c := by
  rw [dfHasCol_eq_isSome, dfHasCol_eq_isSome, ← getColFirst_eq_dictFind,
    ← getColFirst_eq_dictFind, getColFirst_aliasStep_other N d p c hne]

/-- Presence survives a funnel step. -/
theorem dfHasCol_aliasStep_mono (N : List String) (d : DataFrame)
    (p : String × List String) (c : String) (h : dfHasCol d c = true) :
    dfHasCol (aliasStep N d p) c = true := by
  by_cases hne : c = p.1
  · subst hne
    exact dfHasCol_aliasStep_self N d p
  · rw [dfHasCol_aliasStep_other N d p c hne]
    exact h

/-- Presence survives one indicator-loop iteration. -/
theorem dfHasCol_indicatorStep_mono (d : DataFrame) (p : String × String)
    (c : String) (h : dfHasCol d c = true) :
    dfHasCol (indicatorStep d p) c = true := by
  unfold indicatorStep locSetMasked
  by_cases hany : (((getColFirst d "result_indicator").getD []).map
      (fun v => indicatorMatches v p.1)).any id = true
  · rw [if_pos hany]
    cases getColFirst d p.2 with
    | some old =>
      rw [dfHasCol_eq_isSome, dictFind_dictInsert]
      by_cases he : c = p.2
      · rw [if_pos he]; rfl
      · rw [if_neg he, ← dfHasCol_eq_isSome]; exact h
    | none =>
      rw [dfHasCol_eq_isSome, dictFind_dictInsert]
      by_cases he : c = p.2
      · rw [if_pos he]; rfl
      · rw [if_neg he, ← dfHasCol_eq_isSome]; exact h
  · rw [if_neg hany]
    exact h

/-- Presence survives the whole indicator loop. -/
theorem dfHasCol_indicatorFold_mono (l : List (String × String)) (d : DataFrame)
    (c : String) (h : dfHasCol d c = true) :
    dfHasCol (l.foldl indicatorStep d) c = true := by
  induction l generalizing d with
  | nil => exact h
  | cons p rest ih => exact ih _ (dfHasCol_indicatorStep_mono d p c h)

/-- Presence survives a `mapCol`. -/
theorem dfHasCol_mapCol_mono (d : DataFrame) (k : String) (f : Value → Value)
    (c : String) (h : dfHasCol d c = true) :
    dfHasCol (mapCol d k f) c = true := by
  unfold mapCol
  cases getColFirst d k with
  | some vals =>
    rw [dfHasCol_eq_isSome, dictFind_dictInsert]
    by_cases he : c = k
    · rw [if_pos he]; rfl
    · rw [if_neg he, ← dfHasCol_eq_isSome]; exact h
  | none => exact h

/-- Presence survives the indicator phase. -/
theorem dfHasCol_indicatorPhase_mono (ctx : PyCtx) (d : DataFrame) (c : String)
    (h : dfHasCol d c = true) :
    dfHasCol (funnelIndicatorPhase ctx d) c = true := by
  unfold funnelIndicatorPhase
  by_cases hg : (dfHasCol d "result_indicator" && dfHasCol d "results") = true
  · rw [if_pos hg]
    exact dfHasCol_indicatorFold_mono _ _ _ (dfHasCol_mapCol_mono _ _ _ _ h)
  · rw [if_neg hg]
    exact h

/-- A successful alias search binds an existing header. -/
theorem src_mem_of_findSome (cols : List String) (As : List String) (src : String)
    (hg : As.findSome? (fun al => lookupNormLast cols (normalize_text al)) = some src) :
    src ∈ cols := by
  obtain ⟨al, _, hal⟩ := List.exists_of_findSome?_eq_some hg
  exact (lookupNormLast_spec cols (normalize_text al) src hal).1

/-- A funnel step keeps the frame non-empty. -/
theorem aliasStep_ne_nil (N : List String) (d : DataFrame)
    (p : String × List String) (hd : d ≠ []) : aliasStep N d p ≠ [] := by
  unfold aliasStep
  cases p.2.findSome? (fun al => lookupNormLast N (normalize_text al)) with
  | some src => exact dictInsert_ne_nil _ _ _
  | none =>
    by_cases hc : (dfCols d).contains p.1
    · rw [if_pos hc]
      exact hd
    · rw [if_neg hc]
      exact dictInsert_ne_nil _ _ _

/-- A funnel step with a successful alias search is a plain column copy. -/
theorem aliasStep_eq_some (N : List String) (d : DataFrame)
    (p : String × List String) (src : String)
    (hg : p.2.findSome? (fun al => lookupNormLast N (normalize_text al)) = some src) :
    aliasStep N d p = dictInsert d p.1 ((getColFirst d src).getD []) := by
  unfold aliasStep
  rw [hg]

/-- A funnel step with no alias match and a present target is a no-op. -/
theorem aliasStep_eq_none_present (N : List String) (d : DataFrame)
    (p : String × List String) (hc : (dfCols d).contains p.1 = true)
    (hg : p.2.findSome? (fun al => lookupNormLast N (normalize_text al)) = none) :
    aliasStep N d p = d := by
  unfold aliasStep
  rw [hg]
  exact if_pos hc

/-- A funnel step with no alias match and an absent target is a zero fill. -/
theorem aliasStep_eq_none_absent (N : List String) (d : DataFrame)
    (p : String × List String) (hc : (dfCols d).contains p.1 = false)
    (hg : p.2.findSome? (fun al => lookupNormLast N (normalize_text al)) = none) :
    aliasStep N d p = dictInsert d p.1 (List.replicate (nrows d) (Value.n 0)) := by
  unfold aliasStep
  rw [hg]
  exact if_neg (by rw [hc]; exact Bool.false_ne_true)

/-- The expected column when an alias matches. -/
theorem expectedFunnelCol_some (df : DataFrame) (As : List String) (src : String)
    (hg : As.findSome? (fun al => lookupNormLast (dfCols df) (normalize_text al))
      = some src) :
    expectedFunnelCol df As = (getColFirst df src).getD [] := by
  unfold expectedFunnelCol
  rw [hg]

/-- The expected column when no alias matches. -/
theorem expectedFunnelCol_none (df : DataFrame) (As : List String)
    (hg : As.findSome? (fun al => lookupNormLast (dfCols df) (normalize_text al))
      = none) :
    expectedFunnelCol df As = List.replicate (nrows df) (Value.n 0) := by
  unfold expectedFunnelCol
  rw [hg]

/-- A funnel step keeps the row count when its bound source column (if any)
has full length. -/
theorem nrows_aliasStep (N : List String) (d : DataFrame)
    (p : String × List String) (hd : d ≠ [])
    (hsrc : ∀ src, p.2.findSome? (fun al => lookupNormLast N (normalize_text al))
      = some src → ∃ v, getColFirst d src = some v ∧ v.length = nrows d) :
    nrows (aliasStep N d p) = nrows d := by
  cases hg : p.2.findSome? (fun al => lookupNormLast N (normalize_text al)) with
  | some src =>
    obtain ⟨v, hv, hlen⟩ := hsrc src hg
    rw [aliasStep_eq_some N d p src hg, hv, Option.getD_some]
    exact nrows_dictInsert d p.1 v hd hlen
  | none =>
    by_cases hc : (dfCols d).contains p.1 = true
    · rw [aliasStep_eq_none_present N d p hc hg]
    · rw [aliasStep_eq_none_absent N d p (Bool.eq_false_iff.mpr hc) hg]
      exact nrows_dictInsert d p.1 _ hd (List.length_replicate _ _)

/-- C10 counterexample: with no funnel alias present, `purchases` is first
filled with 0, but the `result_indicator` pass then overwrites the row with
the NaN-coerced `results` value — the column ends up null, not zero, at the
aggregation boundary. -/
theorem c10_indicator_overwrites_counterexample :
    dfEmpty c10df = false ∧
    dfHasCol c10df "purchases" = false ∧
    getColFirst (normalize_funnel_columns ctx0 c10df) "purchases" = some [Value.null] ∧
    some [Value.null] ≠ some [Value.n 0] := by
  exact ⟨by decide, by decide, by decide, by decide⟩

/-- C10 (amended): after `normalize_funnel_columns` on a non-empty
(rectangular) dataframe the columns `lp_views`, `add_to_cart` and `purchases`
are always present; and whenever the `result_indicator` pass is inactive
(no `result_indicator` or no `results` column), each of them holds exactly
the data of the first matching alias column in the fixed alias order, or a
constant-0 fill when no alias matches (the column being then necessarily
absent). When that pass is active it may overwrite masked rows — including
with nulls — which is what the counterexample exhibits. -/
theorem c10_funnel_columns (ctx : PyCtx) (df : DataFrame)
    (hne : dfEmpty df = false)
    (hrect : ∀ p ∈ df, p.2.length = nrows df) :
    (dfHasCol (normalize_funnel_columns ctx df) "lp_views" = true ∧
     dfHasCol (normalize_funnel_columns ctx df) "add_to_cart" = true ∧
     dfHasCol (normalize_funnel_columns ctx df) "purchases" = true) ∧
    ((dfHasCol df "result_indicator" = false ∨ dfHasCol df "results" = false) →
      ∀ t aliases, (t, aliases) ∈ funnel_column_aliases →
        getColFirst (normalize_funnel_columns ctx df) t =
          some (expectedFunnelCol df aliases)) := by
  have hdfne : df ≠ [] := by
    intro h
    rw [h] at hne
    simp [dfEmpty] at hne
  have hphase : normalize_funnel_columns ctx df =
      funnelIndicatorPhase ctx (funnelAliasPhase df) := by
    unfold normalize_funnel_columns
    rw [if_neg (by simp [hne])]
  have hfold : funnelAliasPhase df =
      aliasStep (dfCols df)
        (aliasStep (dfCols df)
          (aliasStep (dfCols df) df ("lp_views", lp_views_aliases))
          ("add_to_cart", add_to_cart_aliases))
        ("purchases", purchases_aliases) := by
    rw [funnelAliasPhase, funnel_column_aliases]
    rfl
  have hd1ne : aliasStep (dfCols df) df ("lp_views", lp_views_aliases) ≠ [] :=
    aliasStep_ne_nil _ _ _ hdfne
  have hnr1 : nrows (aliasStep (dfCols df) df ("lp_views", lp_views_aliases)) =
      nrows df := by
    refine nrows_aliasStep _ _ _ hdfne ?_
    intro src hg
    have hmem := src_mem_of_findSome _ _ _ hg
    exact col_length_of_hasCol df src hrect (List.elem_iff.mpr hmem)
  have hnr2 : nrows (aliasStep (dfCols df)
      (aliasStep (dfCols df) df ("lp_views", lp_views_aliases))
      ("add_to_cart", add_to_cart_aliases)) =
      nrows (aliasStep (dfCols df) df ("lp_views", lp_views_aliases)) := by
    refine nrows_aliasStep _ _ _ hd1ne ?_
    intro src hg
    have hmem := src_mem_of_findSome _ _ _ hg
    have hsne : src ≠ "lp_views" := src_ne_of_findSome _ _ _ _ hg (by decide)
    obtain ⟨v, hv, hlen⟩ :=
      col_length_of_hasCol df src hrect (List.elem_iff.mpr hmem)
    refine ⟨v, ?_, ?_⟩
    · rw [getColFirst_aliasStep_other _ _ _ _ hsne]
      exact hv
    · rw [hnr1]
      exact hlen
  constructor
  · rw [hphase]
    refine ⟨?_, ?_, ?_⟩ <;>
      refine dfHasCol_indicatorPhase_mono _ _ _ ?_
    · rw [hfold]
      refine dfHasCol_aliasStep_mono _ _ _ _
        (dfHasCol_aliasStep_mono _ _ _ _ ?_)
      exact dfHasCol_aliasStep_self (dfCols df) df ("lp_views", lp_views_aliases)
    · rw [hfold]
      refine dfHasCol_aliasStep_mono _ _ _ _ ?_
      exact dfHasCol_aliasStep_self (dfCols df) _ ("add_to_cart", add_to_cart_aliases)
    · rw [hfold]
      exact dfHasCol_aliasStep_self (dfCols df) _ ("purchases", purchases_aliases)
  · intro hnoind t As hmem
    have hri : dfHasCol (funnelAliasPhase df) "result_indicator" =
        dfHasCol df "result_indicator" := by
      rw [hfold, dfHasCol_aliasStep_other _ _ _ _ (by decide),
        dfHasCol_aliasStep_other _ _ _ _ (by decide),
        dfHasCol_aliasStep_other _ _ _ _ (by decide)]
    have hre : dfHasCol (funnelAliasPhase df) "results" =
        dfHasCol df "results" := by
      rw [hfold, dfHasCol_aliasStep_other _ _ _ _ (by decide),
        dfHasCol_aliasStep_other _ _ _ _ (by decide),
        dfHasCol_aliasStep_other _ _ _ _ (by decide)]
    have hindnone : funnelIndicatorPhase ctx (funnelAliasPhase df) =
        funnelAliasPhase df := by
      unfold funnelIndicatorPhase
      rcases hnoind with h | h
      · rw [if_neg (by rw [hri, h]; simp)]
      · rw [if_neg (by rw [hre, h]; simp)]
    rw [hphase, hindnone, hfold]
    rw [funnel_column_aliases] at hmem
    simp only [List.mem_cons, List.not_mem_nil, or_false] at hmem
    rcases hmem with h | h | h <;>
      (rw [Prod.ext_iff] at h; obtain ⟨ht, hAs⟩ := h; subst ht; subst hAs)
    · rw [getColFirst_aliasStep_other _ _ _ _ (by decide),
        getColFirst_aliasStep_other _ _ _ _ (by decide)]
      cases hg : lp_views_aliases.findSome?
          (fun al => lookupNormLast (dfCols df) (normalize_text al)) with
      | some src =>
        rw [aliasStep_eq_some _ _ _ _ hg, getColFirst_dictInsert, if_pos rfl,
          expectedFunnelCol_some df _ src hg]
      | none =>
        have hcf : (dfCols df).contains "lp_views" = false :=
          contains_false_of_findSome_none _ "lp_views" "lp_views" _
            (by decide) rfl hg
        rw [aliasStep_eq_none_absent _ _ _ hcf hg, getColFirst_dictInsert,
          if_pos rfl, expectedFunnelCol_none _ _ hg]
    · rw [getColFirst_aliasStep_other _ _ _ _ (by decide)]
      cases hg : add_to_cart_aliases.findSome?
          (fun al => lookupNormLast (dfCols df) (normalize_text al)) with
      | some src =>
        have hsne : src ≠ "lp_views" := src_ne_of_findSome _ _ _ _ hg (by decide)
        rw [aliasStep_eq_some _ _ _ _ hg, getColFirst_dictInsert, if_pos rfl,
          getColFirst_aliasStep_other _ _ _ _ hsne,
          expectedFunnelCol_some df _ src hg]
      | none =>
        have hcf0 : (dfCols df).contains "add_to_cart" = false :=
          contains_false_of_findSome_none _ "add_to_cart" "add_to_cart" _
            (by decide) rfl hg
        have hcf : (dfCols (aliasStep (dfCols df) df
            ("lp_views", lp_views_aliases))).contains "add_to_cart" = false := by
          have h2 := dfHasCol_aliasStep_other (dfCols df) df
            ("lp_views", lp_views_aliases) "add_to_cart" (by decide)
          exact h2.trans hcf0
        rw [aliasStep_eq_none_absent _ _ _ hcf hg, getColFirst_dictInsert,
          if_pos rfl, expectedFunnelCol_none _ _ hg, hnr1]
    · cases hg : purchases_aliases.findSome?
          (fun al => lookupNormLast (dfCols df) (normalize_text al)) with
      | some src =>
        have hsne1 : src ≠ "add_to_cart" := src_ne_of_findSome _ _ _ _ hg (by decide)
        have hsne2 : src ≠ "lp_views" := src_ne_of_findSome _ _ _ _ hg (by decide)
        rw [aliasStep_eq_some _ _ _ _ hg, getColFirst_dictInsert, if_pos rfl,
          getColFirst_aliasStep_other _ _ _ _ hsne1,
          getColFirst_aliasStep_other _ _ _ _ hsne2,
          expectedFunnelCol_some df _ src hg]
      | none =>
        have hcf0 : (dfCols df).contains "purchases" = false :=
          contains_false_of_findSome_none _ "purchases" "purchases" _
            (by decide) rfl hg
        have hcf : (dfCols (aliasStep (dfCols df)
            (aliasStep (dfCols df) df ("lp_views", lp_views_aliases))
            ("add_to_cart", add_to_cart_aliases))).contains "purchases" = false := by
          have h2 := dfHasCol_aliasStep_other (dfCols df)
            (aliasStep (dfCols df) df ("lp_views", lp_views_aliases))
            ("add_to_cart", add_to_cart_aliases) "purchases" (by decide)
          have h3 := dfHasCol_aliasStep_other (dfCols df) df
            ("lp_views", lp_views_aliases) "purchases" (by decide)
          exact h2.trans (h3.trans hcf0)
        rw [aliasStep_eq_none_absent _ _ _ hcf hg, getColFirst_dictInsert,
          if_pos rfl, expectedFunnelCol_none _ _ hg, hnr2, hnr1]

/-- C10 witness: an `f1` alias binds `lp_views` while the other two targets
are zero-filled, on a dataframe with no indicator columns. -/
theorem c10_funnel_columns_witness :
    dfHasCol (normalize_funnel_columns ctx0 c10aliasDf) "lp_views" = true ∧
    getColFirst (normalize_funnel_columns ctx0 c10aliasDf) "lp_views" =
      some (expectedFunnelCol c10aliasDf lp_views_aliases) ∧
    getColFirst (normalize_funnel_columns ctx0 c10aliasDf) "purchases" =
      some (expectedFunnelCol c10aliasDf purchases_aliases) := by
  have h := c10_funnel_columns ctx0 c10aliasDf (by decide) (by decide)
  exact ⟨h.1.1,
    h.2 (Or.inl (by decide)) "lp_views" lp_views_aliases (by decide),
    h.2 (Or.inl (by decide)) "purchases" purchases_aliases (by decide)⟩

end AdsAnalyzer
